import Mathlib

/-!
# payment-system: the saga's services

A shallow embedding of the services under `lambdas/` (`wallet-service`, `error-handler`,
`gateway-processor`, `payment-orchestrator`, `metrics-collector`: each one's
`internal/service/service.go`), of the batch handlers of the error handler and the gateway
processor (`internal/handler/handler.go`), of the intake request of
`payment-orchestrator/pkg/models/models.go` and of `shared/events/events.go`, followed by
theorems about them.

A service is stateful only through its collaborators: the DynamoDB tables it reads and
writes and the queue it publishes to.  The embedding makes that state explicit (`World`),
gives every service method the world it starts in and returns the error it reports together
with the world it leaves, and supplies through `Env` what the method draws from outside
during one invocation: the clock, fresh UUIDs, the errors its store and bus calls may
return, and the writes of other invocations that land while it runs.

The store is taken at its contract: a read returns what the latest write left, a conditional
update checks and writes atomically, keys identify items, and a call that returns an error
has had no effect.  Tables are lists of items; the operations act on the first item with the
key, and theorems that depend on keys being unique say so.  Logging is left out.

The error handler, the gateway processor, the payment orchestrator and the metrics collector
only write: their worlds record the calls they make to the store, the publisher, the gateway
and CloudWatch, and `Env` gives what each call returns.  A batch handler is given, with
every record, the `Env` of the invocation that processes it.
-/

namespace PaymentSystem

deriving instance DecidableEq for Except

/-- Exact decimal amounts (`decimal.Decimal`, and the DynamoDB number type), counted in the
smallest unit of account in use: comparison and subtraction are exact. -/
abbrev Decimal := Int

/-- The text of a decimal as a Go `string` field holds it, identified by what
`decimal.NewFromString` makes of it: `some d` for text that parses to `d`, `none` for text
the parser rejects (the empty string among them). -/
abbrev DecimalText := Option Decimal

/-- The method `Decimal.String`: the text of a decimal, which parses back to it. -/
def Decimal.String (d : Decimal) : DecimalText := some d

/-- Errors the wallet service returns.  `ErrWalletNotFound` and `ErrInsufficientFunds` are the
two package-level sentinels; `conditionalCheckFailed` is the store's
ConditionalCheckFailedException; `infra` is any other error a store or bus call returns. -/
inductive Err where
  | ErrWalletNotFound
  | ErrInsufficientFunds
  | reservationNotFound
  | conditionalCheckFailed
  | infra (msg : String)
  | reservationFailed (reason : String)
  | wrapped (context : String) (cause : Err)
deriving DecidableEq, Repr

/-- The method `Error()` of an error value: its message. -/
def Err.Error : Err → String
  | .ErrWalletNotFound => "wallet not found"
  | .ErrInsufficientFunds => "insufficient funds"
  | .reservationNotFound => "reservation not found"
  | .conditionalCheckFailed => "ConditionalCheckFailedException: The conditional request failed"
  | .infra msg => msg
  | .reservationFailed reason => "reservation failed: " ++ reason
  | .wrapped context cause => context ++ ": " ++ cause.Error

/-- The function `decimal.NewFromString`: the parsed value, or the zero decimal and an error. -/
def NewFromString (s : DecimalText) : Decimal × Option Err :=
  match s with
  | some d => (d, none)
  | none => (0, some (.infra "can't convert to decimal"))

namespace Events

def PaymentInitiated : String := "payment.initiated"
def PaymentCompleted : String := "payment.completed"
def PaymentFailed : String := "payment.failed"
def FundsReserved : String := "wallet.funds_reserved"
def FundsReservationFailed : String := "wallet.reservation_failed"
def FundsDeducted : String := "wallet.funds_deducted"
def FundsReleased : String := "wallet.funds_released"
def GatewayPaymentApproved : String := "gateway.payment_approved"
def GatewayPaymentRejected : String := "gateway.payment_rejected"

/-- The struct `events.Event`.  Times are instants of a clock that counts in seconds. -/
structure Event where
  ID : String
  EventType : String
  OccurredAt : Nat
  PaymentID : String
  UserID : String
  Amount : Decimal
  Currency : String
  Reason : String
  ReservationID : String
  GatewayRef : String
deriving DecidableEq, Repr

/-- The constructor `events.New`; `id` is the UUID it draws and `now` the clock reading. -/
def New (id : String) (now : Nat) (eventType paymentID userID : String) : Event :=
  { ID := id, EventType := eventType, OccurredAt := now, PaymentID := paymentID, UserID := userID,
    Amount := 0, Currency := "", Reason := "", ReservationID := "", GatewayRef := "" }

def Event.WithAmount (e : Event) (amount : Decimal) (currency : String) : Event :=
  { e with Amount := amount, Currency := currency }

def Event.WithReason (e : Event) (reason : String) : Event :=
  { e with Reason := reason }

def Event.WithReservation (e : Event) (reservationID : String) : Event :=
  { e with ReservationID := reservationID }

def Event.WithGatewayRef (e : Event) (ref : String) : Event :=
  { e with GatewayRef := ref }

end Events

namespace WalletService

open Events

/-- The struct `Wallet`, also the shape of an item of the wallets table.  The table's update
expression subtracts from `balance` and compares it, so the attribute is a number; read into
the Go `string` field it is that number's text. -/
structure Wallet where
  UpdatedAt : Nat
  ID : String
  UserID : String
  Balance : Decimal
  Currency : String
  Version : Int
deriving DecidableEq, Repr

/-- The struct `Reservation`, also the shape of an item of the reservations table. -/
structure Reservation where
  ExpiresAt : Nat
  CreatedAt : Nat
  ID : String
  PaymentID : String
  UserID : String
  Amount : DecimalText
  Currency : String
  Status : String
deriving DecidableEq, Repr

/-- The struct `Service`: the configuration `New` stores. -/
structure Service where
  walletsTable : String
  reservationsTable : String
  gatewayQueueURL : String
deriving DecidableEq, Repr

/-- What the service's collaborators hold: the two tables, and the messages published so far,
each with the queue it was sent to, oldest first. -/
structure World where
  wallets : List Wallet
  reservations : List Reservation
  sent : List (String × Event)
deriving DecidableEq, Repr

/-- One conditional `UpdateItem` on the wallets table as `deductFromWallet` issues it: the key,
the amount, the version the writer read (`:v`) and its clock reading (`:now`). -/
structure DebitWrite where
  walletID : String
  amount : Decimal
  expectedVersion : Int
  now : Nat
deriving DecidableEq, Repr

/-- The errors the collaborators return to one invocation, per call site (`none`: the call
goes through).  A call that returns an error has had no effect. -/
structure Faults where
  query : Option String
  getItem : Option String
  putItem : Option String
  updateWallet : Option String
  updateReservation : Option String
  publish : Option String
deriving DecidableEq, Repr

/-- What one invocation of a service method draws from outside: the clock (in seconds; the
readings taken within one invocation are the same instant), the UUIDs for a new reservation
and a new event, the collaborators' errors, and the conditional writes of other invocations
that reach the wallets table between this invocation's read of the wallet and its own
conditional write (none, for an invocation that runs alone). -/
structure Env where
  now : Nat
  reservationID : String
  eventID : String
  faults : Faults
  concurrent : List DebitWrite
deriving DecidableEq, Repr

/-- No collaborator call returns an error. -/
def Faults.none : Faults :=
  { query := Option.none, getItem := Option.none, putItem := Option.none,
    updateWallet := Option.none, updateReservation := Option.none, publish := Option.none }

/-- The condition expression `version = :v AND balance >= :amount` on a stored item. -/
def debitCondition (d : DebitWrite) (w : Wallet) : Bool :=
  w.Version == d.expectedVersion && decide (w.Balance ≥ d.amount)

/-- The update expression
`SET balance = balance - :amount, updated_at = :now, version = version + :one`. -/
def debitItem (d : DebitWrite) (w : Wallet) : Wallet :=
  { w with Balance := w.Balance - d.amount, UpdatedAt := d.now, Version := w.Version + 1 }

/-- The store's conditional update of the item with key `d.walletID`: `none` is the
ConditionalCheckFailedException, raised when the condition is false on the stored item or
there is no such item; nothing is written then. -/
def conditionalDebit (d : DebitWrite) : List Wallet → Option (List Wallet)
  | [] => none
  | w :: ws =>
    if w.ID == d.walletID then
      if debitCondition d w then some (debitItem d w :: ws) else none
    else (conditionalDebit d ws).map (fun ws' => w :: ws')

/-- Conditional writes reaching the table one after the other; a failed one changes nothing. -/
def landWrites (ws : List Wallet) (ds : List DebitWrite) : List Wallet :=
  ds.foldl (fun acc d => (conditionalDebit d acc).getD acc) ws

/-- The store's `GetItem` on the wallets table by key. -/
def getWallet (ws : List Wallet) (id : String) : Option Wallet :=
  ws.find? (fun w => w.ID == id)

/-- The store's unconditional `UpdateItem` with `SET #status = :status` on the reservations
table: it edits the item with that key, or creates one holding only the key and the status. -/
def setStatus (id status : String) : List Reservation → List Reservation
  | [] => [{ ExpiresAt := 0, CreatedAt := 0, ID := id, PaymentID := "", UserID := "",
             Amount := none, Currency := "", Status := status }]
  | r :: rs =>
    if r.ID == id then { r with Status := status } :: rs else r :: setStatus id status rs

/-- The store's `PutItem` on the reservations table: the item replaces any with the same key. -/
def putItem (r : Reservation) (rs : List Reservation) : List Reservation :=
  rs.filter (fun x => x.ID != r.ID) ++ [r]

/-- The method `Publish` of the event publisher: the message is appended to the queue. -/
def Publish (env : Env) (w : World) (queueURL : String) (event : Event) : Option Err × World :=
  match env.faults.publish with
  | some e => (some (.infra e), w)
  | none => (none, { w with sent := w.sent ++ [(queueURL, event)] })

/-- The method `getWalletByUser`: a query on the owner index, limit 1. -/
def getWalletByUser (env : Env) (w : World) (userID : String) : Except Err Wallet :=
  match env.faults.query with
  | some e => .error (.infra e)
  | none =>
    match w.wallets.find? (fun x => x.UserID == userID) with
    | none => .error .ErrWalletNotFound
    | some wallet => .ok wallet

/-- The method `deductFromWallet`: read the owner's wallet, then write conditionally on the
version read.  Between the two the writes of `env.concurrent` land. -/
def deductFromWallet (env : Env) (w : World) (userID : String) (amount : Decimal) :
    Option Err × World :=
  match getWalletByUser env w userID with
  | .error e => (some e, w)
  | .ok wallet =>
    let w1 := { w with wallets := landWrites w.wallets env.concurrent }
    match env.faults.updateWallet with
    | some e => (some (.infra e), w1)
    | none =>
      match conditionalDebit
          { walletID := wallet.ID, amount := amount, expectedVersion := wallet.Version,
            now := env.now } w1.wallets with
      | none => (some .conditionalCheckFailed, w1)
      | some ws => (none, { w1 with wallets := ws })

/-- The method `saveReservation`. -/
def saveReservation (env : Env) (w : World) (r : Reservation) : Option Err × World :=
  match env.faults.putItem with
  | some e => (some (.infra e), w)
  | none => (none, { w with reservations := putItem r w.reservations })

/-- The method `getReservation`. -/
def getReservation (env : Env) (w : World) (id : String) : Except Err Reservation :=
  match env.faults.getItem with
  | some e => .error (.infra e)
  | none =>
    match w.reservations.find? (fun r => r.ID == id) with
    | none => .error .reservationNotFound
    | some r => .ok r

/-- The method `updateReservation`: writes the status of `r` under the key of `r`. -/
def updateReservation (env : Env) (w : World) (r : Reservation) : Option Err × World :=
  match env.faults.updateReservation with
  | some e => (some (.infra e), w)
  | none => (none, { w with reservations := setStatus r.ID r.Status w.reservations })

/-- The method `publishReservationFailed`: it builds the event, logs, and returns the error;
the event is not handed to the publisher. -/
def publishReservationFailed (env : Env) (paymentID userID : String) (amount : Decimal)
    (currency reason : String) : Err :=
  let event := Events.New env.eventID env.now FundsReservationFailed paymentID userID
  let _event := (event.WithAmount amount currency).WithReason reason
  .reservationFailed reason

/-- The method `ReserveFunds`. -/
def ReserveFunds (s : Service) (env : Env) (w : World) (paymentID userID : String)
    (amount : Decimal) (currency : String) : Option Err × World :=
  match getWalletByUser env w userID with
  | .error err =>
    (some (publishReservationFailed env paymentID userID amount currency err.Error), w)
  | .ok wallet =>
    let balance := (NewFromString wallet.Balance.String).1
    if balance < amount then
      (some (publishReservationFailed env paymentID userID amount currency
        "insufficient funds"), w)
    else
      let reservation : Reservation :=
        { ID := env.reservationID, PaymentID := paymentID, UserID := userID,
          Amount := amount.String, Currency := currency, Status := "active",
          ExpiresAt := env.now + 15 * 60, CreatedAt := env.now }
      match saveReservation env w reservation with
      | (some err, w1) => (some (.wrapped "save reservation" err), w1)
      | (none, w1) =>
        let event := Events.New env.eventID env.now FundsReserved paymentID userID
        let event := (event.WithAmount amount currency).WithReservation reservation.ID
        match Publish env w1 s.gatewayQueueURL event with
        | (some err, w2) => (some err, w2)
        | (none, w2) => (none, w2)

/-- The method `ConfirmDeduction`. -/
def ConfirmDeduction (_s : Service) (env : Env) (w : World)
    (_paymentID reservationID _gatewayRef : String) : Option Err × World :=
  match getReservation env w reservationID with
  | .error err => (some err, w)
  | .ok reservation =>
    let amount := (NewFromString reservation.Amount).1
    match deductFromWallet env w reservation.UserID amount with
    | (some err, w1) => (some err, w1)
    | (none, w1) =>
      let reservation := { reservation with Status := "confirmed" }
      match updateReservation env w1 reservation with
      | (some err, w2) => (some err, w2)
      | (none, w2) => (none, w2)

/-- The method `ReleaseFunds`. -/
def ReleaseFunds (_s : Service) (env : Env) (w : World) (reservationID _reason : String) :
    Option Err × World :=
  match getReservation env w reservationID with
  | .error err => (some err, w)
  | .ok reservation =>
    let reservation := { reservation with Status := "released" }
    match updateReservation env w reservation with
    | (some err, w1) => (some err, w1)
    | (none, w1) => (none, w1)

/-- How a stored wallet item can differ after conditional debits have reached the table: same
key and owner, a version that has not decreased, and a balance that is not negative if it was
not negative before. -/
def Evolves (x y : Wallet) : Prop :=
  y.ID = x.ID ∧ y.UserID = x.UserID ∧ x.Version ≤ y.Version ∧ (0 ≤ x.Balance → 0 ≤ y.Balance)

/-- One debit attempt: an invocation of `deductFromWallet` with what it draws from outside. -/
structure DebitAttempt where
  env : Env
  userID : String
  amount : Decimal
deriving DecidableEq, Repr

/-- The world after a sequence of debit attempts, each running in the world the previous one
left. -/
def runDebits (w : World) (attempts : List DebitAttempt) : World :=
  attempts.foldl (fun acc a => (deductFromWallet a.env acc a.userID a.amount).2) w

/-- Sample data, after the values of `service_test.go`. -/
def demoService : Service :=
  { walletsTable := "wallets", reservationsTable := "reservations",
    gatewayQueueURL := "http://gateway-queue" }

def demoEnv : Env :=
  { now := 1000, reservationID := "res-new", eventID := "evt-new", faults := Faults.none,
    concurrent := [] }

/-- An invocation during which another invocation's debit of 10, issued on version 1, lands. -/
def racingEnv : Env :=
  { demoEnv with
    concurrent := [{ walletID := "wallet-abc", amount := 10, expectedVersion := 1, now := 999 }] }

def demoWallet (balance : Decimal) (version : Int) (updatedAt : Nat) : Wallet :=
  { UpdatedAt := updatedAt, ID := "wallet-abc", UserID := "user-789", Balance := balance,
    Currency := "USD", Version := version }

def demoReservation (status : String) : Reservation :=
  { ExpiresAt := 900, CreatedAt := 0, ID := "res-123", PaymentID := "pay-456",
    UserID := "user-789", Amount := some 100, Currency := "USD", Status := status }

/-- A world with one wallet of the given balance at version 1 and one reservation of 100 in
the given status. -/
def demoWorld (balance : Decimal) (status : String) : World :=
  { wallets := [demoWallet balance 1 0], reservations := [demoReservation status], sent := [] }

/-- Three attempts on the demo wallet: a debit of 300, a second debit of 300, and a debit of
50 racing with another invocation's debit of 150. -/
def demoAttempts : List DebitAttempt :=
  [ { env := demoEnv, userID := "user-789", amount := 300 },
    { env := demoEnv, userID := "user-789", amount := 300 },
    { env := { demoEnv with
               concurrent := [{ walletID := "wallet-abc", amount := 150, expectedVersion := 2,
                                now := 1001 }] },
      userID := "user-789", amount := 50 } ]

end WalletService

namespace ErrorHandler

open Events

/-- The struct `FailedEvent`, also the shape of an item of the failed-events table. -/
structure FailedEvent where
  CreatedAt : Nat
  ID : String
  OriginalEvent : String
  EventType : String
  PaymentID : String
  ErrorMessage : String
  Source : String
  Status : String
  RetryCount : Int
deriving DecidableEq, Repr

/-- The struct `Service` of the error handler: the configuration `New` stores. -/
structure Service where
  tableName : String
  walletQueueURL : String
  maxRetries : Int
deriving DecidableEq, Repr

/-- What the error handler has asked of its collaborators, oldest first: the items it handed
to the store's `PutItem`, and the messages it handed to the publisher's `Publish`, each with
the queue named.  The handler reads nothing back, so the calls it makes and the error it
returns are all there is to observe; what a call that returns an error has done is the
collaborator's matter. -/
structure World where
  puts : List FailedEvent
  published : List (String × Event)
deriving DecidableEq, Repr

/-- What one invocation draws from outside: the clock, and the errors the store's `PutItem`
and the publisher's `Publish` return to it (`none`: the call succeeds). -/
structure Env where
  now : Nat
  putItem : Option String
  publish : Option String
deriving DecidableEq, Repr

/-- The decoder `json.Unmarshal` at the type `events.Event`, which the repository takes from
the standard library: the event a body decodes to, or the text of the decoding error. -/
abbrev Unmarshal := String → Except String Event

/-- The store's `PutItem` as the handler calls it: the call is recorded and returns what the
store returns. -/
def PutItem (env : Env) (w : World) (item : FailedEvent) : Option Err × World :=
  (env.putItem.map Err.infra, { w with puts := w.puts ++ [item] })

/-- The method `Publish` of the event publisher as the handler calls it: the call is recorded
and returns what the publisher returns. -/
def Publish (env : Env) (w : World) (queueURL : String) (event : Event) : Option Err × World :=
  (env.publish.map Err.infra, { w with published := w.published ++ [(queueURL, event)] })

/-- The method `isRetryable`: membership in the map of retryable kinds. -/
def isRetryable (eventType : String) : Bool :=
  eventType == PaymentInitiated || eventType == FundsReserved

/-- The method `retryEvent`. -/
def retryEvent (s : Service) (env : Env) (w : World) (event : Event) : Option Err × World :=
  match Publish env w s.walletQueueURL event with
  | (some err, w1) => (some err, w1)
  | (none, w1) => (none, w1)

/-- The method `storeFailedEvent`. -/
def storeFailedEvent (_s : Service) (env : Env) (w : World)
    (messageID body eventType paymentID errorMsg source : String) (retryCount : Int) :
    Option Err × World :=
  let failed : FailedEvent :=
    { ID := messageID, OriginalEvent := body, EventType := eventType, PaymentID := paymentID,
      ErrorMessage := errorMsg, Source := source, RetryCount := retryCount, Status := "failed",
      CreatedAt := env.now }
  match PutItem env w failed with
  | (some err, w1) => (some (.wrapped "store failed event" err), w1)
  | (none, w1) => (none, w1)

/-- The method `HandleFailedEvent`. -/
def HandleFailedEvent (unmarshal : Unmarshal) (s : Service) (env : Env) (w : World)
    (messageID body source : String) (retryCount : Int) : Option Err × World :=
  match unmarshal body with
  | .error err =>
    storeFailedEvent s env w messageID body "unknown" "" ("unmarshal error: " ++ err) source
      retryCount
  | .ok event =>
    if retryCount < s.maxRetries && isRetryable event.EventType then
      retryEvent s env w event
    else
      storeFailedEvent s env w messageID body event.EventType event.PaymentID
        "max retries exceeded" source retryCount

/-- Sample data, after the values of the error handler's `service_test.go`. -/
def demoService : Service :=
  { tableName := "failed-events", walletQueueURL := "http://wallet-queue", maxRetries := 3 }

def demoEnv : Env :=
  { now := 2000, putItem := none, publish := none }

/-- The sample event of a kind; the one of kind wallet.funds_reserved is the event the wallet
service's sample reservation publishes. -/
def demoEvent (kind : String) : Event :=
  { ID := "evt-new", EventType := kind, OccurredAt := 1000, PaymentID := "pay-789",
    UserID := "user-789", Amount := 100, Currency := "USD", Reason := "",
    ReservationID := if kind == FundsReserved then "res-new" else "", GatewayRef := "" }

/-- A decoder for the sample bodies: a body naming a kind of the catalog decodes to the sample
event of that kind, any other body is rejected. -/
def demoUnmarshal : Unmarshal := fun body =>
  if body == PaymentInitiated || body == FundsReserved || body == GatewayPaymentApproved then
    .ok (demoEvent body)
  else .error "invalid character 'i' looking for beginning of value"

def emptyWorld : World :=
  { puts := [], published := [] }

end ErrorHandler

namespace GatewayProcessor

open Events

/-- The struct `GatewayResponse`. -/
structure GatewayResponse where
  Reference : String
  ErrorCode : String
  Message : String
  Approved : Bool
deriving DecidableEq, Repr

/-- The struct `Service` of the gateway processor: the configuration `New` stores (the
gateway client's answers are in `Env`). -/
structure Service where
  walletQueueURL : String
deriving DecidableEq, Repr

/-- What the gateway processor has asked of its collaborators, oldest first: the authorization
requests it made to the gateway (amount and currency), and the messages it handed to the
publisher's `Publish`, each with the queue named.  The processor reads nothing back, so the
calls it makes and the error it returns are all there is to observe. -/
structure World where
  gatewayCalls : List (Decimal × String)
  published : List (String × Event)
deriving DecidableEq, Repr

/-- What one invocation draws from outside: the clock, the UUID for a new event, what the
gateway client's `ProcessPayment` returns to a request (a response, or the text of a
transport error), and the error the publisher's `Publish` returns (`none`: the call
succeeds). -/
structure Env where
  now : Nat
  eventID : String
  gateway : Decimal → String → Except String GatewayResponse
  publish : Option String

/-- The method `Publish` of the event publisher as the processor calls it: the call is
recorded and returns what the publisher returns. -/
def Publish (env : Env) (w : World) (queueURL : String) (event : Event) : Option Err × World :=
  (env.publish.map Err.infra, { w with published := w.published ++ [(queueURL, event)] })

/-- The method `publishApproved`. -/
def publishApproved (s : Service) (env : Env) (w : World)
    (paymentID userID reservationID gatewayRef : String) : Option Err × World :=
  let event := Events.New env.eventID env.now GatewayPaymentApproved paymentID userID
  let event := (event.WithReservation reservationID).WithGatewayRef gatewayRef
  match Publish env w s.walletQueueURL event with
  | (some err, w1) => (some (.wrapped "publish approved event" err), w1)
  | (none, w1) => (none, w1)

/-- The method `publishRejected`; the code is only logged. -/
def publishRejected (s : Service) (env : Env) (w : World)
    (paymentID userID reservationID _code reason : String) : Option Err × World :=
  let event := Events.New env.eventID env.now GatewayPaymentRejected paymentID userID
  let event := (event.WithReservation reservationID).WithReason reason
  match Publish env w s.walletQueueURL event with
  | (some err, w1) => (some (.wrapped "publish rejected event" err), w1)
  | (none, w1) => (none, w1)

/-- The method `ProcessPayment`: one request to the gateway, then one publish. -/
def ProcessPayment (s : Service) (env : Env) (w : World)
    (paymentID userID reservationID : String) (amount : Decimal) (currency : String) :
    Option Err × World :=
  let w1 := { w with gatewayCalls := w.gatewayCalls ++ [(amount, currency)] }
  match env.gateway amount currency with
  | .error err =>
    publishRejected s env w1 paymentID userID reservationID "gateway_error" err
  | .ok resp =>
    if !resp.Approved then
      publishRejected s env w1 paymentID userID reservationID resp.ErrorCode resp.Message
    else
      publishApproved s env w1 paymentID userID reservationID resp.Reference

/-- Sample data, after the values of the gateway processor's `service_test.go`. -/
def demoService : Service :=
  { walletQueueURL := "http://wallet-queue" }

/-- An invocation in which the gateway answers `answer` and the publisher returns `publish`. -/
def demoEnv (answer : Except String GatewayResponse) (publish : Option String) : Env :=
  { now := 3000, eventID := "evt-gw", gateway := fun _ _ => answer, publish := publish }

def approvedResponse : GatewayResponse :=
  { Reference := "GW-12345", ErrorCode := "", Message := "", Approved := true }

def declinedResponse : GatewayResponse :=
  { Reference := "", ErrorCode := "DECLINED", Message := "insufficient funds at issuer",
    Approved := false }

def emptyWorld : World :=
  { gatewayCalls := [], published := [] }

end GatewayProcessor

/-- The struct `events.SQSMessage` of aws-lambda-go, in the fields the handlers read;
`Attributes` is the map, as its list of entries. -/
structure SQSMessage where
  MessageId : String
  Body : String
  Attributes : List (String × String)
  EventSourceARN : String
deriving DecidableEq, Repr

/-- The function `strconv.Atoi`: an optional sign and decimal digits, within the range of a
64-bit `int`; `none` is its error. -/
def Atoi (s : String) : Option Int :=
  let digits : List Char :=
    match s.toList with
    | '-' :: rest => rest
    | '+' :: rest => rest
    | all => all
  if digits.isEmpty || !digits.all Char.isDigit then none
  else
    let n : Nat := digits.foldl (fun acc c => acc * 10 + (c.toNat - '0'.toNat)) 0
    let v : Int := if s.toList.head? == some '-' then -(n : Int) else (n : Int)
    if v < -(2 : Int) ^ 63 || v > (2 : Int) ^ 63 - 1 then none else some v

/-- The loop both handlers' `Handle` run over a batch:
`var lastErr error; for each record, if processRecord fails, lastErr = err; return lastErr`.
`lastErr` is the value of the variable on entry. -/
def forEachRecord {W R : Type} (processRecord : W → R → Option Err × W) :
    Option Err → W → List R → Option Err × W
  | lastErr, w, [] => (lastErr, w)
  | lastErr, w, record :: rest =>
    match processRecord w record with
    | (some err, w1) => forEachRecord processRecord (some err) w1 rest
    | (none, w1) => forEachRecord processRecord lastErr w1 rest

/-- The outcome of handing every record of a batch, in order, to `processRecord`, each in the
world the previous one left: what each record returned, and the final world. -/
def runRecords {W R : Type} (processRecord : W → R → Option Err × W) :
    W → List R → List (Option Err) × W
  | w, [] => ([], w)
  | w, record :: rest =>
    ((processRecord w record).1 :: (runRecords processRecord (processRecord w record).2 rest).1,
      (runRecords processRecord (processRecord w record).2 rest).2)

/-- The error of the last record that failed, if any did. -/
def lastFailure : List (Option Err) → Option Err
  | [] => none
  | outcome :: rest =>
    match lastFailure rest with
    | some err => some err
    | none => outcome

namespace ErrorHandler

open Events

/-- The method `getSource` of the handler. -/
def getSource (record : SQSMessage) : String :=
  if record.EventSourceARN != "" then record.EventSourceARN else "unknown"

/-- The method `getRetryCount` of the handler. -/
def getRetryCount (record : SQSMessage) : Int :=
  match record.Attributes.lookup "ApproximateReceiveCount" with
  | some attr =>
    match Atoi attr with
    | some count => count
    | none => 0
  | none => 0

/-- The method `processRecord` of the handler. -/
def processRecord (unmarshal : Unmarshal) (s : Service) (env : Env) (w : World)
    (record : SQSMessage) : Option Err × World :=
  let source := getSource record
  let retryCount := getRetryCount record
  HandleFailedEvent unmarshal s env w record.MessageId record.Body source retryCount

/-- The method `Handle` of the handler; each record comes with what its processing draws from
outside. -/
def Handle (unmarshal : Unmarshal) (s : Service) (w : World)
    (records : List (Env × SQSMessage)) : Option Err × World :=
  forEachRecord (fun w1 r => processRecord unmarshal s r.1 w1 r.2) none w records

end ErrorHandler

namespace GatewayProcessor

open Events

/-- The method `processRecord` of the handler; `unmarshal` is `json.Unmarshal` at the type
`events.Event`. -/
def processRecord (unmarshal : ErrorHandler.Unmarshal) (s : Service) (env : Env) (w : World)
    (record : SQSMessage) : Option Err × World :=
  match unmarshal record.Body with
  | .error err => (some (.wrapped "unmarshal event" (.infra err)), w)
  | .ok event =>
    if event.EventType == FundsReserved then
      ProcessPayment s env w event.PaymentID event.UserID event.ReservationID event.Amount
        event.Currency
    else (none, w)

/-- The method `Handle` of the handler; each record comes with what its processing draws from
outside. -/
def Handle (unmarshal : ErrorHandler.Unmarshal) (s : Service) (w : World)
    (records : List (Env × SQSMessage)) : Option Err × World :=
  forEachRecord (fun w1 r => processRecord unmarshal s r.1 w1 r.2) none w records

end GatewayProcessor

namespace PaymentOrchestrator

open Events

/-- The struct `models.CreatePaymentRequest`. -/
structure CreatePaymentRequest where
  UserID : String
  ServiceID : String
  Amount : Decimal
  Currency : String
  Description : String
deriving DecidableEq, Repr

/-- The struct `models.ValidationError`. -/
structure ValidationError where
  msg : String
deriving DecidableEq, Repr

/-- The function `models.ErrValidation`. -/
def ErrValidation (msg : String) : ValidationError := { msg := msg }

/-- The method `Validate`; `none` is the nil error. -/
def CreatePaymentRequest.Validate (r : CreatePaymentRequest) : Option ValidationError :=
  if r.UserID == "" then some (ErrValidation "user_id is required")
  else if r.Amount ≤ 0 then some (ErrValidation "amount must be positive")
  else if r.Currency == "" then some (ErrValidation "currency is required")
  else none

/-- The struct `Payment`. -/
structure Payment where
  CreatedAt : Nat
  UpdatedAt : Nat
  ID : String
  UserID : String
  ServiceID : String
  Amount : Decimal
  Currency : String
  Status : String
  Description : String
deriving DecidableEq, Repr

/-- A map attribute (`types.AttributeValueMemberM`), by its entries: the name of each and the
text of its value. -/
abbrev MapAttribute := List (String × String)

/-- The attribute the encoder of `attributevalue` writes, under its default options, for a
`decimal.Decimal`.  The type is a struct that implements no `attributevalue.Marshaler`, so
the encoder writes it as a map with one entry for each exported field; `decimal.Decimal` has
no exported field, so the map has no entry, whatever the number is. -/
def marshalDecimal (_d : Decimal) : MapAttribute := []

/-- An item of the payments table as `attributevalue.MarshalMap` makes it of a `Payment`: one
attribute for each `dynamodbav` tag.  The attributes of the times and of the strings are
string attributes, named here by the instant, respectively the string, whose text they hold;
`amount` is the attribute written for the decimal. -/
structure Item where
  created_at : Nat
  updated_at : Nat
  id : String
  user_id : String
  service_id : String
  amount : MapAttribute
  currency : String
  status : String
  description : String
deriving DecidableEq, Repr

/-- The call `attributevalue.MarshalMap(payment)`. -/
def MarshalMap (payment : Payment) : Item :=
  { created_at := payment.CreatedAt, updated_at := payment.UpdatedAt, id := payment.ID,
    user_id := payment.UserID, service_id := payment.ServiceID,
    amount := marshalDecimal payment.Amount, currency := payment.Currency,
    status := payment.Status, description := payment.Description }

/-- The struct `Service` of the orchestrator: the configuration `New` stores. -/
structure Service where
  tableName : String
  walletQueueURL : String
deriving DecidableEq, Repr

/-- What `CreatePayment` has asked of its collaborators, oldest first: the items it handed to
the store's `PutItem` and the messages it handed to the publisher's `Publish`, each with the
queue named. -/
structure World where
  puts : List Item
  published : List (String × Event)
deriving DecidableEq, Repr

/-- What one invocation draws from outside: the clock, the UUIDs for the payment and for the
event, and the errors the store's `PutItem` and the publisher's `Publish` return to it
(`none`: the call succeeds). -/
structure Env where
  now : Nat
  paymentID : String
  eventID : String
  putItem : Option String
  publish : Option String
deriving DecidableEq, Repr

/-- The store's `PutItem` as the service calls it: the call is recorded and returns what the
store returns. -/
def PutItem (env : Env) (w : World) (item : Item) : Option Err × World :=
  (env.putItem.map Err.infra, { w with puts := w.puts ++ [item] })

/-- The method `Publish` of the event publisher as the service calls it: the call is recorded
and returns what the publisher returns. -/
def Publish (env : Env) (w : World) (queueURL : String) (event : Event) : Option Err × World :=
  (env.publish.map Err.infra, { w with published := w.published ++ [(queueURL, event)] })

/-- The method `CreatePayment`: the payment it returns, or the error (with no payment). -/
def CreatePayment (s : Service) (env : Env) (w : World)
    (userID serviceID currency description : String) (amount : Decimal) :
    Except Err Payment × World :=
  let payment : Payment :=
    { ID := env.paymentID, UserID := userID, ServiceID := serviceID, Amount := amount,
      Currency := currency, Status := "pending", Description := description,
      CreatedAt := env.now, UpdatedAt := env.now }
  let item := MarshalMap payment
  match PutItem env w item with
  | (some err, w1) => (.error (.wrapped "save payment" err), w1)
  | (none, w1) =>
    let event := Events.New env.eventID env.now PaymentInitiated payment.ID payment.UserID
    let event := event.WithAmount payment.Amount payment.Currency
    match Publish env w1 s.walletQueueURL event with
    | (some _err, w2) => (.ok payment, w2)
    | (none, w2) => (.ok payment, w2)

end PaymentOrchestrator

namespace MetricsCollector

open Events

/-- The struct `types.Dimension` of the CloudWatch SDK. -/
structure Dimension where
  Name : String
  Value : String
deriving DecidableEq, Repr

/-- The struct `types.MetricDatum` of the CloudWatch SDK, in the fields the service sets.
`Value` is a float64 in the source; it is named here by the exact number the code converts to
it (1, or the event's amount).  `Unit` is the unit's name. -/
structure MetricDatum where
  MetricName : String
  Value : Decimal
  Timestamp : Nat
  Dimensions : List Dimension
  Unit : String
deriving DecidableEq, Repr

/-- The struct `Service` of the metrics collector: the configuration `New` stores (its field
`namespace`). -/
structure Service where
  metricNamespace : String
deriving DecidableEq, Repr

/-- What the collector has asked of CloudWatch, oldest first: the `PutMetricData` calls, each
with its namespace and its data. -/
structure World where
  putMetricData : List (String × List MetricDatum)
deriving DecidableEq, Repr

/-- What one invocation draws from outside: the clock, and the error `PutMetricData` returns
(`none`: the call succeeds). -/
structure Env where
  now : Nat
  putMetricData : Option String
deriving DecidableEq, Repr

/-- The method `successMetric`. -/
def successMetric (_s : Service) (t : Nat) : MetricDatum :=
  { MetricName := "PaymentSuccess", Value := 1, Timestamp := t, Dimensions := [],
    Unit := "Count" }

/-- The method `failureMetric`. -/
def failureMetric (_s : Service) (t : Nat) (eventType : String) : MetricDatum :=
  { MetricName := "PaymentFailure", Value := 1, Timestamp := t,
    Dimensions := [{ Name := "FailureType", Value := eventType }], Unit := "Count" }

/-- The method `buildMetrics`. -/
def buildMetrics (s : Service) (env : Env) (event : Event) : List MetricDatum :=
  let now := env.now
  let metrics : List MetricDatum := []
  let metrics := metrics ++
    [{ MetricName := "EventCount", Value := 1, Timestamp := now,
       Dimensions := [{ Name := "EventType", Value := event.EventType }], Unit := "Count" }]
  let metrics :=
    if !(event.Amount == 0) then
      metrics ++
        [{ MetricName := "PaymentAmount", Value := event.Amount, Timestamp := now,
           Dimensions := [{ Name := "EventType", Value := event.EventType },
                          { Name := "Currency", Value := event.Currency }],
           Unit := "None" }]
    else metrics
  let metrics :=
    if event.EventType == PaymentCompleted then metrics ++ [successMetric s now]
    else if event.EventType == PaymentFailed || event.EventType == FundsReservationFailed
        || event.EventType == GatewayPaymentRejected then
      metrics ++ [failureMetric s now event.EventType]
    else metrics
  metrics

/-- The client's `PutMetricData` as the service calls it: the call is recorded and returns
what CloudWatch returns. -/
def PutMetricData (env : Env) (w : World) (metricNamespace : String)
    (metricData : List MetricDatum) : Option Err × World :=
  (env.putMetricData.map Err.infra,
    { w with putMetricData := w.putMetricData ++ [(metricNamespace, metricData)] })

/-- The method `RecordEvent`. -/
def RecordEvent (s : Service) (env : Env) (w : World) (event : Event) : Option Err × World :=
  let metrics := buildMetrics s env event
  if metrics.length == 0 then (none, w)
  else
    match PutMetricData env w s.metricNamespace metrics with
    | (some err, w1) => (some err, w1)
    | (none, w1) => (none, w1)

end MetricsCollector

/-- A sample record: the message ID and body given, delivered once from the gateway queue's
dead-letter queue. -/
def demoRecord (messageID body : String) : SQSMessage :=
  { MessageId := messageID, Body := body, Attributes := [("ApproximateReceiveCount", "1")],
    EventSourceARN := "arn:aws:sqs:us-east-1:000000000000:gateway-queue-dlq" }

namespace PaymentOrchestrator

/-- Sample data, after the values of the orchestrator's `service_test.go`. -/
def demoService : Service :=
  { tableName := "payments", walletQueueURL := "http://queue" }

/-- An invocation in which the store's write returns `putItem` and the publish `publish`. -/
def demoEnv (putItem publish : Option String) : Env :=
  { now := 4000, paymentID := "pay-new", eventID := "evt-pay", putItem := putItem,
    publish := publish }

def emptyWorld : World :=
  { puts := [], published := [] }

end PaymentOrchestrator

namespace MetricsCollector

/-- Sample data, after the values of the collector's `service_test.go`. -/
def demoService : Service :=
  { metricNamespace := "PaymentSystem" }

def demoEnv : Env :=
  { now := 5000, putMetricData := none }

def emptyWorld : World :=
  { putMetricData := [] }

end MetricsCollector

/-! ## Theorems -/

namespace WalletService

open Events

theorem Evolves.refl (x : Wallet) : Evolves x x :=
  ⟨rfl, rfl, le_refl _, fun h => h⟩

theorem Evolves.trans {x y z : Wallet} (hxy : Evolves x y) (hyz : Evolves y z) : Evolves x z :=
  ⟨hyz.1.trans hxy.1, hyz.2.1.trans hxy.2.1, le_trans hxy.2.2.1 hyz.2.2.1,
    fun h => hyz.2.2.2 (hxy.2.2.2 h)⟩

theorem evolves_same (ws : List Wallet) : List.Forall₂ Evolves ws ws :=
  List.forall₂_same.mpr (fun x _ => Evolves.refl x)

theorem evolves_chain {as bs cs : List Wallet} (hab : List.Forall₂ Evolves as bs)
    (hbc : List.Forall₂ Evolves bs cs) : List.Forall₂ Evolves as cs := by
  induction hab generalizing cs with
  | nil => cases hbc; exact List.Forall₂.nil
  | cons hxy _ ih =>
    cases hbc with
    | cons hyz hrest => exact List.Forall₂.cons (hxy.trans hyz) (ih hrest)

theorem debitItem_evolves (d : DebitWrite) (x : Wallet) (h : debitCondition d x = true) :
    Evolves x (debitItem d x) := by
  simp only [debitCondition, Bool.and_eq_true, decide_eq_true_eq] at h
  refine ⟨rfl, rfl, ?_, fun _ => ?_⟩
  · simp only [debitItem]; omega
  · exact Int.sub_nonneg_of_le h.2

/-- A successful conditional debit rewrites exactly one item, the first with the key, on
which the condition held; every other item is as it was. -/
theorem conditionalDebit_some {d : DebitWrite} {ws ws' : List Wallet}
    (h : conditionalDebit d ws = some ws') :
    ∃ pre x post, ws = pre ++ x :: post ∧ ws' = pre ++ debitItem d x :: post ∧
      (∀ y ∈ pre, y.ID ≠ d.walletID) ∧ x.ID = d.walletID ∧ debitCondition d x = true := by
  induction ws generalizing ws' with
  | nil => simp [conditionalDebit] at h
  | cons w ws ih =>
    simp only [conditionalDebit] at h
    by_cases hk : (w.ID == d.walletID) = true
    · simp only [hk, if_true] at h
      by_cases hc : debitCondition d w = true
      · simp only [hc, if_true, Option.some.injEq] at h
        exact ⟨[], w, ws, rfl, h.symm, by simp, by simpa using hk, hc⟩
      · simp [hc] at h
    · simp only [hk, Bool.false_eq_true, if_false, Option.map_eq_some'] at h
      obtain ⟨t, ht, rfl⟩ := h
      obtain ⟨pre, x, post, rfl, rfl, hpre, hx, hc⟩ := ih ht
      refine ⟨w :: pre, x, post, rfl, rfl, ?_, hx, hc⟩
      intro y hy
      rcases List.mem_cons.mp hy with rfl | hy
      · simpa using hk
      · exact hpre y hy

theorem conditionalDebit_evolves {d : DebitWrite} {ws ws' : List Wallet}
    (h : conditionalDebit d ws = some ws') : List.Forall₂ Evolves ws ws' := by
  obtain ⟨pre, x, post, rfl, rfl, _, _, hc⟩ := conditionalDebit_some h
  exact List.rel_append (evolves_same pre)
    (List.Forall₂.cons (debitItem_evolves d x hc) (evolves_same post))

theorem landWrites_evolves (ds : List DebitWrite) (ws : List Wallet) :
    List.Forall₂ Evolves ws (landWrites ws ds) := by
  induction ds generalizing ws with
  | nil => exact evolves_same ws
  | cons d ds ih =>
    simp only [landWrites, List.foldl_cons]
    cases h : conditionalDebit d ws with
    | none => simpa [landWrites] using ih ws
    | some ws' =>
      simp only [Option.getD_some]
      exact evolves_chain (conditionalDebit_evolves h) (by simpa [landWrites] using ih ws')

theorem deductFromWallet_evolves (env : Env) (w : World) (userID : String) (amount : Decimal) :
    List.Forall₂ Evolves w.wallets (deductFromWallet env w userID amount).2.wallets := by
  unfold deductFromWallet
  cases getWalletByUser env w userID with
  | error e => exact evolves_same _
  | ok wallet =>
    simp only
    cases env.faults.updateWallet with
    | some e => exact landWrites_evolves _ _
    | none =>
      simp only
      split
      · exact landWrites_evolves _ _
      · next ws hws =>
        exact evolves_chain (landWrites_evolves _ _) (conditionalDebit_evolves hws)

theorem runDebits_evolves (attempts : List DebitAttempt) (w : World) :
    List.Forall₂ Evolves w.wallets (runDebits w attempts).wallets := by
  induction attempts generalizing w with
  | nil => exact evolves_same _
  | cons a rest ih =>
    simp only [runDebits, List.foldl_cons]
    exact evolves_chain (deductFromWallet_evolves a.env w a.userID a.amount)
      (by simpa [runDebits] using ih _)

theorem evolves_ids {ws ws' : List Wallet} (h : List.Forall₂ Evolves ws ws') :
    ws'.map (fun x => x.ID) = ws.map (fun x => x.ID) := by
  induction h with
  | nil => rfl
  | cons hxy _ ih => simp [hxy.1, ih]

theorem evolves_nonneg {ws ws' : List Wallet} (h : List.Forall₂ Evolves ws ws') (id : String)
    (h0 : ∀ x ∈ ws, x.ID = id → 0 ≤ x.Balance) : ∀ y ∈ ws', y.ID = id → 0 ≤ y.Balance := by
  induction h with
  | nil => intro y hy; cases hy
  | cons hxy _ ih =>
    intro y hy hid
    rcases List.mem_cons.mp hy with rfl | hy
    · exact hxy.2.2.2 (h0 _ (List.mem_cons_self _ _) (hxy.1 ▸ hid))
    · exact ih (fun x hx => h0 x (List.mem_cons_of_mem _ hx)) y hy hid

/-- C1. Starting from a wallet whose stored balance is not negative, after every attempt of
every finite sequence of debit attempts (each an invocation of `deductFromWallet` with any
owner, any amount, any store errors and any concurrent conditional writes of other
invocations) the wallet is still stored and its balance is not negative. -/
theorem balance_never_negative (w : World) (attempts : List DebitAttempt) (id : String)
    (h : ∀ x ∈ w.wallets, x.ID = id → 0 ≤ x.Balance) (k : Nat) :
    (runDebits w (attempts.take k)).wallets.map (fun x => x.ID) = w.wallets.map (fun x => x.ID) ∧
    ∀ y ∈ (runDebits w (attempts.take k)).wallets, y.ID = id → 0 ≤ y.Balance :=
  ⟨evolves_ids (runDebits_evolves _ w), evolves_nonneg (runDebits_evolves _ w) id h⟩

/-- C1 at the demo attempts: after all three the wallet is still stored, with balance 50. -/
theorem balance_never_negative_witness :
    (runDebits (demoWorld 500 "active") (demoAttempts.take 3)).wallets
      = [demoWallet 50 3 1001] ∧
    ((runDebits (demoWorld 500 "active") (demoAttempts.take 3)).wallets.map (fun x => x.ID)
      = (demoWorld 500 "active").wallets.map (fun x => x.ID) ∧
    ∀ y ∈ (runDebits (demoWorld 500 "active") (demoAttempts.take 3)).wallets,
      y.ID = "wallet-abc" → 0 ≤ y.Balance) :=
  ⟨by decide,
   balance_never_negative (demoWorld 500 "active") demoAttempts "wallet-abc" (by decide) 3⟩

/-- The conditional debit fails when the condition is false on the stored item. -/
theorem conditionalDebit_none_of_condition {d : DebitWrite} {ws : List Wallet} {stored : Wallet}
    (hs : getWallet ws d.walletID = some stored) (hc : debitCondition d stored = false) :
    conditionalDebit d ws = none := by
  induction ws with
  | nil => rfl
  | cons w ws ih =>
    simp only [getWallet, List.find?_cons] at hs
    simp only [conditionalDebit]
    by_cases hk : (w.ID == d.walletID) = true
    · simp only [hk, Option.some.injEq] at hs
      subst hs
      simp [hk, hc]
    · simp only [Bool.not_eq_true] at hk
      simp only [hk] at hs
      simp [hk, ih hs]

theorem conditionalDebit_none_of_stale {d : DebitWrite} {ws : List Wallet} {stored : Wallet}
    (hs : getWallet ws d.walletID = some stored) (hv : stored.Version ≠ d.expectedVersion) :
    conditionalDebit d ws = none :=
  conditionalDebit_none_of_condition hs (by simp [debitCondition, hv])

/-- A conditional debit applied to a table in which the first item with the key is `x`. -/
theorem conditionalDebit_split (d : DebitWrite) (pre post : List Wallet) (x : Wallet)
    (hpre : ∀ y ∈ pre, y.ID ≠ d.walletID) (hx : x.ID = d.walletID) :
    conditionalDebit d (pre ++ x :: post) =
      if debitCondition d x then some (pre ++ debitItem d x :: post) else none := by
  induction pre with
  | nil => simp [conditionalDebit, hx]
  | cons p pre ih =>
    have hp : (p.ID == d.walletID) = false := by
      simpa using hpre p (List.mem_cons_self _ _)
    have := ih (fun y hy => hpre y (List.mem_cons_of_mem _ hy))
    rw [List.cons_append, conditionalDebit]
    simp only [hp, Bool.false_eq_true, if_false]
    rw [this]
    by_cases hc : debitCondition d x = true <;> simp [hc]

theorem getWallet_split (pre post : List Wallet) (x : Wallet) (key : String)
    (hpre : ∀ y ∈ pre, y.ID ≠ key) (hx : x.ID = key) :
    getWallet (pre ++ x :: post) key = some x := by
  induction pre with
  | nil => simp [getWallet, hx]
  | cons p pre ih =>
    have hp : (p.ID == key) = false := by simpa using hpre p (List.mem_cons_self _ _)
    have := ih (fun y hy => hpre y (List.mem_cons_of_mem _ hy))
    simpa [getWallet, List.find?_cons, hp] using this

/-- Lookups by key follow the items through conditional debits. -/
theorem evolves_getWallet {ws ws' : List Wallet} (h : List.Forall₂ Evolves ws ws') (key : String)
    {x : Wallet} (hx : getWallet ws key = some x) :
    ∃ y, getWallet ws' key = some y ∧ Evolves x y := by
  induction h with
  | nil => simp [getWallet] at hx
  | @cons a b l₁ l₂ hab _ ih =>
    simp only [getWallet, List.find?_cons] at hx ⊢
    by_cases hk : (a.ID == key) = true
    · have hb : (b.ID == key) = true := by rw [hab.1]; exact hk
      simp only [hk, Option.some.injEq] at hx
      subst hx
      exact ⟨b, by simp [hb], hab⟩
    · simp only [Bool.not_eq_true] at hk
      have hb : (b.ID == key) = false := by rw [hab.1]; exact hk
      simp only [hk] at hx
      simpa [hb, getWallet] using ih hx

/-- Of two conditional writes issued against the same version of the same wallet, the one
that reaches the store after the other has succeeded fails, whatever landed in between. -/
theorem second_writer_fails {ws ws1 : List Wallet} {d1 d2 : DebitWrite}
    (between : List DebitWrite) (hkey : d2.walletID = d1.walletID)
    (hver : d2.expectedVersion = d1.expectedVersion)
    (h1 : conditionalDebit d1 ws = some ws1) :
    conditionalDebit d2 (landWrites ws1 between) = none := by
  obtain ⟨pre, x, post, rfl, rfl, hpre, hx, hc⟩ := conditionalDebit_some h1
  have hget : getWallet (pre ++ debitItem d1 x :: post) d1.walletID = some (debitItem d1 x) :=
    getWallet_split pre post _ _ hpre hx
  obtain ⟨y, hy, hxy⟩ := evolves_getWallet (landWrites_evolves between _) _ hget
  simp only [debitCondition, Bool.and_eq_true, decide_eq_true_eq, beq_iff_eq] at hc
  refine conditionalDebit_none_of_stale (hkey ▸ hy) ?_
  have := hxy.2.2.1
  simp only [debitItem] at this
  omega

/-- C2. A conditional write whose expected version differs from the stored version fails and
writes nothing, so the stored wallet (balance and version) is as before; `deductFromWallet`
then returns the conditional-check error and leaves the world as the concurrent writes left
it; and of two writes issued on the same version of the same wallet, once one has succeeded
the other fails, whatever other writes land in between, so at most one of them succeeds. -/
theorem stale_version_write_fails :
    (∀ (ws : List Wallet) (d : DebitWrite) (stored : Wallet),
      getWallet ws d.walletID = some stored → stored.Version ≠ d.expectedVersion →
      conditionalDebit d ws = none ∧ landWrites ws [d] = ws ∧
        getWallet (landWrites ws [d]) d.walletID = some stored) ∧
    (∀ (env : Env) (w : World) (userID : String) (amount : Decimal) (wallet stored : Wallet),
      getWalletByUser env w userID = .ok wallet →
      getWallet (landWrites w.wallets env.concurrent) wallet.ID = some stored →
      stored.Version ≠ wallet.Version → env.faults.updateWallet = none →
      deductFromWallet env w userID amount =
        (some .conditionalCheckFailed,
          { w with wallets := landWrites w.wallets env.concurrent })) ∧
    (∀ (ws ws1 : List Wallet) (d1 d2 : DebitWrite) (between : List DebitWrite),
      d2.walletID = d1.walletID → d2.expectedVersion = d1.expectedVersion →
      conditionalDebit d1 ws = some ws1 →
      conditionalDebit d2 (landWrites ws1 between) = none ∧
        landWrites ws1 (between ++ [d2]) = landWrites ws1 between) := by
  refine ⟨?_, ?_, ?_⟩
  · intro ws d stored hs hv
    have hnone := conditionalDebit_none_of_stale hs hv
    have hland : landWrites ws [d] = ws := by simp [landWrites, hnone]
    exact ⟨hnone, hland, by rw [hland]; exact hs⟩
  · intro env w userID amount wallet stored hw hs hv hu
    have hnone : conditionalDebit
        { walletID := wallet.ID, amount := amount, expectedVersion := wallet.Version,
          now := env.now } (landWrites w.wallets env.concurrent) = none :=
      conditionalDebit_none_of_stale hs hv
    simp [deductFromWallet, hw, hu, hnone]
  · intro ws ws1 d1 d2 between hkey hver h1
    have hnone := second_writer_fails between hkey hver h1
    refine ⟨hnone, ?_⟩
    unfold landWrites at hnone ⊢
    simp [List.foldl_append, hnone]

/-- C2 at the demo wallet (balance 500, version 1): a write expecting version 0 fails; a debit
that read version 1 and is overtaken by another write on version 1 gets the conditional-check
error; and of two writes on version 1 the second fails after the first has succeeded. -/
theorem stale_version_write_fails_witness :
    (conditionalDebit ⟨"wallet-abc", 100, 0, 7⟩ [demoWallet 500 1 0] = none ∧
      landWrites [demoWallet 500 1 0] [⟨"wallet-abc", 100, 0, 7⟩] = [demoWallet 500 1 0] ∧
      getWallet (landWrites [demoWallet 500 1 0] [⟨"wallet-abc", 100, 0, 7⟩]) "wallet-abc"
        = some (demoWallet 500 1 0)) ∧
    deductFromWallet racingEnv (demoWorld 500 "active") "user-789" 100 =
      (some .conditionalCheckFailed,
        { demoWorld 500 "active" with
          wallets := landWrites (demoWorld 500 "active").wallets racingEnv.concurrent }) ∧
    (conditionalDebit ⟨"wallet-abc", 200, 1, 8⟩
        (landWrites [demoWallet 400 2 7] []) = none ∧
      landWrites [demoWallet 400 2 7] ([] ++ [⟨"wallet-abc", 200, 1, 8⟩])
        = landWrites [demoWallet 400 2 7] []) :=
  ⟨stale_version_write_fails.1 [demoWallet 500 1 0] ⟨"wallet-abc", 100, 0, 7⟩
      (demoWallet 500 1 0) (by decide) (by decide),
   stale_version_write_fails.2.1 racingEnv (demoWorld 500 "active") "user-789" 100
      (demoWallet 500 1 0) (demoWallet 490 2 999) (by decide) (by decide) (by decide)
      (by decide),
   stale_version_write_fails.2.2 [demoWallet 500 1 0] [demoWallet 400 2 7]
      ⟨"wallet-abc", 100, 1, 7⟩ ⟨"wallet-abc", 200, 1, 8⟩ [] (by decide) (by decide)
      (by decide)⟩

/-- In a table whose keys are unique, the wallet the owner query returns is the item stored
under its own key. -/
theorem owner_query_split {ws : List Wallet} {userID : String} {wallet : Wallet}
    (hkeys : (ws.map (fun x => x.ID)).Nodup)
    (hq : ws.find? (fun x => x.UserID == userID) = some wallet) :
    ∃ pre post, ws = pre ++ wallet :: post ∧ (∀ y ∈ pre, y.UserID ≠ userID) ∧
      (∀ y ∈ pre, y.ID ≠ wallet.ID) ∧ wallet.UserID = userID := by
  obtain ⟨hp, pre, post, rfl, hpre⟩ := List.find?_eq_some.mp hq
  refine ⟨pre, post, rfl, ?_, ?_, by simpa using hp⟩
  · intro y hy
    simpa using hpre y hy
  · intro y hy hid
    rw [List.map_append, List.map_cons] at hkeys
    have hdis := (List.nodup_append.mp hkeys).2.2
    exact hdis (List.mem_map_of_mem (fun x => x.ID) hy) (by simp [hid])

theorem owner_query_after_debit (d : DebitWrite) (pre post : List Wallet) (x : Wallet)
    (userID : String) (hpre : ∀ y ∈ pre, y.UserID ≠ userID) (hx : x.UserID = userID) :
    (pre ++ debitItem d x :: post).find? (fun y => y.UserID == userID) =
      some (debitItem d x) := by
  induction pre with
  | nil => simp [debitItem, hx]
  | cons p pre ih =>
    have hp : (p.UserID == userID) = false := by simpa using hpre p (List.mem_cons_self _ _)
    have := ih (fun y hy => hpre y (List.mem_cons_of_mem _ hy))
    simpa [List.find?_cons, hp] using this

theorem setStatus_find_same (id status : String) (rs : List Reservation) (r : Reservation)
    (h : rs.find? (fun x => x.ID == id) = some r) :
    (setStatus id status rs).find? (fun x => x.ID == id) = some { r with Status := status } := by
  induction rs with
  | nil => simp at h
  | cons a rs ih =>
    simp only [List.find?_cons] at h
    simp only [setStatus]
    by_cases hk : (a.ID == id) = true
    · simp only [hk, Option.some.injEq] at h
      subst h
      simp [hk]
    · simp only [Bool.not_eq_true] at hk
      simp only [hk] at h
      simp [hk, ih h]

theorem setStatus_find_other (id status other : String) (rs : List Reservation)
    (hne : other ≠ id) :
    (setStatus id status rs).find? (fun x => x.ID == other) =
      rs.find? (fun x => x.ID == other) := by
  induction rs with
  | nil => simp [setStatus, Ne.symm hne]
  | cons a rs ih =>
    simp only [setStatus]
    by_cases hk : (a.ID == id) = true
    · have ha : a.ID = id := by simpa using hk
      have hno : (id == other) = false := by simpa using Ne.symm hne
      simp [hk, List.find?_cons, ha, hno]
    · simp only [Bool.not_eq_true] at hk
      simp [hk, List.find?_cons, ih]

theorem setStatus_same_status (id : String) (rs : List Reservation) (r : Reservation)
    (h : rs.find? (fun x => x.ID == id) = some r) : setStatus id r.Status rs = rs := by
  induction rs with
  | nil => simp at h
  | cons a rs ih =>
    simp only [List.find?_cons] at h
    simp only [setStatus]
    by_cases hk : (a.ID == id) = true
    · simp only [hk, Option.some.injEq] at h
      subst h
      simp [hk]
    · simp only [Bool.not_eq_true] at hk
      simp only [hk] at h
      simp [hk, ih h]

theorem getReservation_key {env : Env} {w : World} {id : String} {r : Reservation}
    (h : getReservation env w id = .ok r) :
    env.faults.getItem = none ∧ w.reservations.find? (fun x => x.ID == id) = some r ∧
      r.ID = id := by
  unfold getReservation at h
  cases hg : env.faults.getItem with
  | some e => simp [hg] at h
  | none =>
    simp only [hg] at h
    cases hf : w.reservations.find? (fun x => x.ID == id) with
    | none => simp [hf] at h
    | some r' =>
      simp only [hf, Except.ok.injEq] at h
      subst h
      exact ⟨rfl, rfl, by simpa using List.find?_some hf⟩

theorem getWalletByUser_key {env : Env} {w : World} {userID : String} {wallet : Wallet}
    (h : getWalletByUser env w userID = .ok wallet) :
    env.faults.query = none ∧ w.wallets.find? (fun x => x.UserID == userID) = some wallet := by
  unfold getWalletByUser at h
  cases hg : env.faults.query with
  | some e => simp [hg] at h
  | none =>
    simp only [hg] at h
    cases hf : w.wallets.find? (fun x => x.UserID == userID) with
    | none => simp [hf] at h
    | some r' =>
      simp only [hf, Except.ok.injEq] at h
      subst h
      exact ⟨rfl, rfl⟩

/-- A confirmation that meets no store error and no concurrent write, on a reservation of
amount `a` whose owner's wallet covers it: the wallet is debited once and the reservation's
status is written as confirmed, whatever the status was. -/
theorem confirm_debits_once (s : Service) (env : Env) (w : World)
    (paymentID reservationID gatewayRef : String) (r : Reservation) (wallet : Wallet)
    (a : Decimal) (hfaults : env.faults = Faults.none) (hseq : env.concurrent = [])
    (hkeys : (w.wallets.map (fun x => x.ID)).Nodup)
    (hr : getReservation env w reservationID = .ok r) (ha : r.Amount = some a)
    (hw : getWalletByUser env w r.UserID = .ok wallet) (hb : a ≤ wallet.Balance) :
    (ConfirmDeduction s env w paymentID reservationID gatewayRef).1 = none ∧
    getWalletByUser env (ConfirmDeduction s env w paymentID reservationID gatewayRef).2 r.UserID
      = .ok { wallet with Balance := wallet.Balance - a, UpdatedAt := env.now,
                          Version := wallet.Version + 1 } ∧
    getReservation env (ConfirmDeduction s env w paymentID reservationID gatewayRef).2
      reservationID = .ok { r with Status := "confirmed" } := by
  obtain ⟨hg, hfind, hid⟩ := getReservation_key hr
  obtain ⟨hq, hwf⟩ := getWalletByUser_key hw
  obtain ⟨pre, post, hws, hpreU, hpreK, hu⟩ := owner_query_split hkeys hwf
  have hcond : debitCondition ⟨wallet.ID, a, wallet.Version, env.now⟩ wallet = true := by
    simp [debitCondition, hb]
  have hdebit := conditionalDebit_split ⟨wallet.ID, a, wallet.Version, env.now⟩ pre post wallet
    hpreK rfl
  rw [hcond, if_pos rfl, ← hws] at hdebit
  have hupd : env.faults.updateWallet = none := by rw [hfaults]; rfl
  have hupr : env.faults.updateReservation = none := by rw [hfaults]; rfl
  have hdeduct : deductFromWallet env w r.UserID a =
      (none, { w with wallets :=
        pre ++ debitItem ⟨wallet.ID, a, wallet.Version, env.now⟩ wallet :: post }) := by
    simp [deductFromWallet, hw, hseq, landWrites, hupd, hdebit]
  have hout : ConfirmDeduction s env w paymentID reservationID gatewayRef =
      (none, { wallets := pre ++ debitItem ⟨wallet.ID, a, wallet.Version, env.now⟩ wallet :: post,
               reservations := setStatus r.ID "confirmed" w.reservations,
               sent := w.sent }) := by
    simp [ConfirmDeduction, hr, ha, NewFromString, hdeduct, updateReservation, hupr]
  rw [hout]
  refine ⟨rfl, ?_, ?_⟩
  · simp only [getWalletByUser, hq]
    rw [owner_query_after_debit _ pre post wallet r.UserID hpreU hu]
    rfl
  · simp only [getReservation, hg]
    rw [← hid] at hfind ⊢
    rw [setStatus_find_same r.ID "confirmed" w.reservations r hfind]

/-- C3. For an active reservation of amount `a` whose owner's wallet has balance `b ≥ a` and
version `v`, with every store call succeeding, `ConfirmDeduction` returns no error and
leaves the wallet with balance `b - a` and version `v + 1` and the reservation confirmed. -/
theorem confirm_active_reservation (s : Service) (env : Env) (w : World)
    (paymentID reservationID gatewayRef : String) (r : Reservation) (wallet : Wallet)
    (a : Decimal) (hfaults : env.faults = Faults.none) (hseq : env.concurrent = [])
    (hkeys : (w.wallets.map (fun x => x.ID)).Nodup)
    (hr : getReservation env w reservationID = .ok r) (_hactive : r.Status = "active")
    (ha : r.Amount = some a)
    (hw : getWalletByUser env w r.UserID = .ok wallet) (hb : a ≤ wallet.Balance) :
    (ConfirmDeduction s env w paymentID reservationID gatewayRef).1 = none ∧
    getWalletByUser env (ConfirmDeduction s env w paymentID reservationID gatewayRef).2 r.UserID
      = .ok { wallet with Balance := wallet.Balance - a, UpdatedAt := env.now,
                          Version := wallet.Version + 1 } ∧
    getReservation env (ConfirmDeduction s env w paymentID reservationID gatewayRef).2
      reservationID = .ok { r with Status := "confirmed" } :=
  confirm_debits_once s env w paymentID reservationID gatewayRef r wallet a hfaults hseq
    hkeys hr ha hw hb

/-- C3 at scenario A: balance 500, an active reservation of 100; the confirmation leaves
balance 400 at version 2 and the reservation confirmed. -/
theorem confirm_active_reservation_witness :
    (ConfirmDeduction demoService demoEnv (demoWorld 500 "active") "pay-456" "res-123"
      "gw-ref-xyz").1 = none ∧
    getWalletByUser demoEnv (ConfirmDeduction demoService demoEnv (demoWorld 500 "active")
      "pay-456" "res-123" "gw-ref-xyz").2 (demoReservation "active").UserID
      = .ok { demoWallet 500 1 0 with Balance := (demoWallet 500 1 0).Balance - 100,
                                      UpdatedAt := demoEnv.now,
                                      Version := (demoWallet 500 1 0).Version + 1 } ∧
    getReservation demoEnv (ConfirmDeduction demoService demoEnv (demoWorld 500 "active")
      "pay-456" "res-123" "gw-ref-xyz").2 "res-123"
      = .ok { demoReservation "active" with Status := "confirmed" } :=
  confirm_active_reservation demoService demoEnv (demoWorld 500 "active") "pay-456" "res-123"
    "gw-ref-xyz" (demoReservation "active") (demoWallet 500 1 0) 100 (by decide) (by decide)
    (by decide) (by decide) (by decide) (by decide) (by decide) (by decide)

/-- Whatever `deductFromWallet` returns, it has touched only the wallets table, and when it
returns an error the table holds what it held, or that with the concurrent writes landed. -/
theorem deductFromWallet_frame (env : Env) (w : World) (userID : String) (amount : Decimal) :
    (deductFromWallet env w userID amount).2.reservations = w.reservations ∧
    (deductFromWallet env w userID amount).2.sent = w.sent ∧
    ((deductFromWallet env w userID amount).1 ≠ none →
      (deductFromWallet env w userID amount).2.wallets = w.wallets ∨
      (deductFromWallet env w userID amount).2.wallets = landWrites w.wallets env.concurrent) := by
  unfold deductFromWallet
  cases getWalletByUser env w userID with
  | error e => simp
  | ok wallet =>
    simp only
    cases env.faults.updateWallet with
    | some e => simp
    | none =>
      simp only
      split <;> simp

/-- C4. Whenever the wallet debit inside `ConfirmDeduction` fails with an error `e` (the owner
has no wallet, the balance is below the reservation's amount, the version read is stale, or
a store call fails), `ConfirmDeduction` returns `e`, the reservations table is untouched (the
status is neither confirmed nor released by the call), nothing is published, and the wallets
table holds what it held before the call or that with the writes of the other invocations,
so that without concurrent writes the world is the one the call started in. -/
theorem confirm_propagates_debit_failure (s : Service) (env : Env) (w : World)
    (paymentID reservationID gatewayRef : String) (r : Reservation) (e : Err)
    (hr : getReservation env w reservationID = .ok r)
    (hfail : (deductFromWallet env w r.UserID (NewFromString r.Amount).1).1 = some e) :
    (ConfirmDeduction s env w paymentID reservationID gatewayRef).1 = some e ∧
    (ConfirmDeduction s env w paymentID reservationID gatewayRef).2.reservations
      = w.reservations ∧
    getReservation env (ConfirmDeduction s env w paymentID reservationID gatewayRef).2
      reservationID = .ok r ∧
    (ConfirmDeduction s env w paymentID reservationID gatewayRef).2.sent = w.sent ∧
    ((ConfirmDeduction s env w paymentID reservationID gatewayRef).2.wallets = w.wallets ∨
      (ConfirmDeduction s env w paymentID reservationID gatewayRef).2.wallets
        = landWrites w.wallets env.concurrent) ∧
    (env.concurrent = [] →
      (ConfirmDeduction s env w paymentID reservationID gatewayRef).2 = w) := by
  obtain ⟨hres, hsent, hwal⟩ := deductFromWallet_frame env w r.UserID (NewFromString r.Amount).1
  have hout : ConfirmDeduction s env w paymentID reservationID gatewayRef =
      (some e, (deductFromWallet env w r.UserID (NewFromString r.Amount).1).2) := by
    unfold ConfirmDeduction
    simp only [hr]
    generalize deductFromWallet env w r.UserID (NewFromString r.Amount).1 = out at hfail
    obtain ⟨o, w1⟩ := out
    simp only at hfail
    subst hfail
    rfl
  have hw := hwal (by rw [hfail]; simp)
  rw [hout]
  refine ⟨rfl, hres, ?_, hsent, hw, ?_⟩
  · obtain ⟨hg, hfind, _⟩ := getReservation_key hr
    simp only [getReservation, hg, hres, hfind]
  · intro hseq
    have hw' : (deductFromWallet env w r.UserID (NewFromString r.Amount).1).2.wallets
        = w.wallets := by
      rcases hw with h | h
      · exact h
      · rw [h, hseq]; rfl
    generalize deductFromWallet env w r.UserID (NewFromString r.Amount).1 = out
      at hres hsent hw'
    obtain ⟨o, w1⟩ := out
    cases w1
    cases w
    simp only at hres hsent hw' ⊢
    rw [hres, hsent, hw']

/-- C4 at the three causes: an owner without a wallet, a balance of 50 under the amount of
100, and a version made stale by a concurrent write. -/
theorem confirm_propagates_debit_failure_witness :
    ((ConfirmDeduction demoService demoEnv
        { demoWorld 500 "active" with wallets := [] } "pay-456" "res-123" "gw-ref-xyz").1
        = some .ErrWalletNotFound ∧
      (demoEnv.concurrent = [] → (ConfirmDeduction demoService demoEnv
        { demoWorld 500 "active" with wallets := [] } "pay-456" "res-123" "gw-ref-xyz").2
        = { demoWorld 500 "active" with wallets := [] })) ∧
    ((ConfirmDeduction demoService demoEnv (demoWorld 50 "active") "pay-456" "res-123"
        "gw-ref-xyz").1 = some .conditionalCheckFailed ∧
      (demoEnv.concurrent = [] → (ConfirmDeduction demoService demoEnv (demoWorld 50 "active")
        "pay-456" "res-123" "gw-ref-xyz").2 = demoWorld 50 "active")) ∧
    ((ConfirmDeduction demoService racingEnv (demoWorld 500 "active") "pay-456" "res-123"
        "gw-ref-xyz").1 = some .conditionalCheckFailed ∧
      getReservation racingEnv (ConfirmDeduction demoService racingEnv (demoWorld 500 "active")
        "pay-456" "res-123" "gw-ref-xyz").2 "res-123" = .ok (demoReservation "active")) :=
  ⟨⟨(confirm_propagates_debit_failure demoService demoEnv
        { demoWorld 500 "active" with wallets := [] } "pay-456" "res-123" "gw-ref-xyz"
        (demoReservation "active") .ErrWalletNotFound (by decide) (by decide)).1,
     (confirm_propagates_debit_failure demoService demoEnv
        { demoWorld 500 "active" with wallets := [] } "pay-456" "res-123" "gw-ref-xyz"
        (demoReservation "active") .ErrWalletNotFound (by decide) (by decide)).2.2.2.2.2⟩,
   ⟨(confirm_propagates_debit_failure demoService demoEnv (demoWorld 50 "active") "pay-456"
        "res-123" "gw-ref-xyz" (demoReservation "active") .conditionalCheckFailed (by decide)
        (by decide)).1,
     (confirm_propagates_debit_failure demoService demoEnv (demoWorld 50 "active") "pay-456"
        "res-123" "gw-ref-xyz" (demoReservation "active") .conditionalCheckFailed (by decide)
        (by decide)).2.2.2.2.2⟩,
   ⟨(confirm_propagates_debit_failure demoService racingEnv (demoWorld 500 "active") "pay-456"
        "res-123" "gw-ref-xyz" (demoReservation "active") .conditionalCheckFailed (by decide)
        (by decide)).1,
     (confirm_propagates_debit_failure demoService racingEnv (demoWorld 500 "active") "pay-456"
        "res-123" "gw-ref-xyz" (demoReservation "active") .conditionalCheckFailed (by decide)
        (by decide)).2.2.1⟩⟩

/-- The three ways a debit fails without any store error: the owner has no wallet; the
stored balance is below the amount; the stored version is not the version read. -/
theorem debit_failure_causes (env : Env) (w : World) (userID : String) (amount : Decimal)
    (hq : env.faults.query = none) (hu : env.faults.updateWallet = none) :
    (w.wallets.find? (fun x => x.UserID == userID) = none →
      deductFromWallet env w userID amount = (some .ErrWalletNotFound, w)) ∧
    (∀ wallet stored, w.wallets.find? (fun x => x.UserID == userID) = some wallet →
      getWallet (landWrites w.wallets env.concurrent) wallet.ID = some stored →
      (stored.Balance < amount ∨ stored.Version ≠ wallet.Version) →
      deductFromWallet env w userID amount =
        (some .conditionalCheckFailed,
          { w with wallets := landWrites w.wallets env.concurrent })) := by
  refine ⟨?_, ?_⟩
  · intro hnone
    simp [deductFromWallet, getWalletByUser, hq, hnone]
  · intro wallet stored hfind hs hcause
    have hc : debitCondition ⟨wallet.ID, amount, wallet.Version, env.now⟩ stored = false := by
      rcases hcause with h | h
      · simp [debitCondition, h]
      · simp [debitCondition, h]
    have hnone := conditionalDebit_none_of_condition
      (d := ⟨wallet.ID, amount, wallet.Version, env.now⟩) hs hc
    simp [deductFromWallet, getWalletByUser, hq, hfind, hu, hnone]

theorem updateReservation_same_status (env : Env) (w : World) (id : String) (r : Reservation)
    (h : w.reservations.find? (fun x => x.ID == id) = some r) :
    (updateReservation env w r).2 = w := by
  have hid : r.ID = id := by simpa using List.find?_some h
  unfold updateReservation
  cases env.faults.updateReservation with
  | some e => rfl
  | none =>
    simp only
    rw [hid, setStatus_same_status id w.reservations r h]

/-- What `ReleaseFunds` does once the reservation is loaded and the status write goes through. -/
theorem release_loaded (s : Service) (env : Env) (w : World) (reservationID reason : String)
    (r : Reservation) (hr : getReservation env w reservationID = .ok r)
    (hu : env.faults.updateReservation = none) :
    ReleaseFunds s env w reservationID reason =
      (none, { w with reservations := setStatus reservationID "released" w.reservations }) := by
  obtain ⟨_, _, hid⟩ := getReservation_key hr
  simp [ReleaseFunds, hr, updateReservation, hu, hid]

/-- A `ConfirmDeduction` that returns no error has written the status confirmed. -/
theorem confirm_success_status (s : Service) (env : Env) (w : World)
    (paymentID reservationID gatewayRef : String) (r : Reservation)
    (hr : w.reservations.find? (fun x => x.ID == reservationID) = some r)
    (hok : (ConfirmDeduction s env w paymentID reservationID gatewayRef).1 = none) :
    (ConfirmDeduction s env w paymentID reservationID gatewayRef).2.reservations.find?
      (fun x => x.ID == reservationID) = some { r with Status := "confirmed" } := by
  have hid : r.ID = reservationID := by simpa using List.find?_some hr
  subst hid
  unfold ConfirmDeduction getReservation at hok ⊢
  cases hg : env.faults.getItem with
  | some e => simp [hg] at hok
  | none =>
    simp only [hg, hr] at hok ⊢
    have hres := (deductFromWallet_frame env w r.UserID (NewFromString r.Amount).1).1
    generalize deductFromWallet env w r.UserID (NewFromString r.Amount).1 = out at hok hres ⊢
    obtain ⟨o, w1⟩ := out
    cases o with
    | some e => simp at hok
    | none =>
      simp only [updateReservation] at hok ⊢
      cases hu : env.faults.updateReservation with
      | some e => simp [hu] at hok
      | none =>
        simp only at hres
        simp only [hu, hres]
        exact setStatus_find_same r.ID "confirmed" w.reservations r hr

/-- C5 fails as stated: on a confirmed reservation `ReleaseFunds` returns no error and leaves
it released, and on a released reservation `ConfirmDeduction` returns no error and leaves it
confirmed (after debiting the wallet). -/
theorem terminal_status_overwritten :
    getReservation demoEnv (demoWorld 500 "confirmed") "res-123"
      = .ok (demoReservation "confirmed") ∧
    ReleaseFunds demoService demoEnv (demoWorld 500 "confirmed") "res-123" "declined by issuer"
      = (none, demoWorld 500 "released") ∧
    getReservation demoEnv (demoWorld 500 "released") "res-123"
      = .ok (demoReservation "released") ∧
    ConfirmDeduction demoService demoEnv (demoWorld 500 "released") "pay-456" "res-123"
      "gw-ref-xyz"
      = (none, { wallets := [demoWallet 400 2 1000],
                 reservations := [demoReservation "confirmed"], sent := [] }) ∧
    demoReservation "confirmed" ≠ demoReservation "released" := by
  decide

/-- C5 (amended). A confirmed reservation keeps its status, and the whole reservations table
its contents, through every `ConfirmDeduction` call on it, and a released one through every
`ReleaseFunds` call on it, whatever the outcome of the call.  Across the two operations the
statuses are not terminal: a `ReleaseFunds` whose store calls succeed leaves the reservation
released whatever its status was, and a `ConfirmDeduction` that returns no error leaves it
confirmed whatever its status was. -/
theorem repeat_call_keeps_status (s : Service) (env : Env) (w : World)
    (paymentID reservationID gatewayRef reason : String) (r : Reservation)
    (hr : w.reservations.find? (fun x => x.ID == reservationID) = some r) :
    (r.Status = "confirmed" →
      (ConfirmDeduction s env w paymentID reservationID gatewayRef).2.reservations
        = w.reservations) ∧
    (r.Status = "released" →
      (ReleaseFunds s env w reservationID reason).2.reservations = w.reservations) ∧
    (env.faults.getItem = none → env.faults.updateReservation = none →
      (ReleaseFunds s env w reservationID reason).1 = none ∧
      (ReleaseFunds s env w reservationID reason).2.reservations.find?
        (fun x => x.ID == reservationID) = some { r with Status := "released" }) ∧
    ((ConfirmDeduction s env w paymentID reservationID gatewayRef).1 = none →
      (ConfirmDeduction s env w paymentID reservationID gatewayRef).2.reservations.find?
        (fun x => x.ID == reservationID) = some { r with Status := "confirmed" }) := by
  have hid : r.ID = reservationID := by simpa using List.find?_some hr
  refine ⟨?_, ?_, ?_, ?_⟩
  · intro hst
    unfold ConfirmDeduction getReservation
    cases env.faults.getItem with
    | some e => rfl
    | none =>
      simp only [hr]
      have hres := (deductFromWallet_frame env w r.UserID (NewFromString r.Amount).1).1
      generalize deductFromWallet env w r.UserID (NewFromString r.Amount).1 = out at hres ⊢
      obtain ⟨o, w1⟩ := out
      cases o with
      | some e => exact hres
      | none =>
        simp only at hres ⊢
        have hr1 : w1.reservations.find? (fun x => x.ID == reservationID) = some r := by
          rw [hres]; exact hr
        have hsame : ({ r with Status := "confirmed" } : Reservation) = r := by
          cases r; simp only at hst; subst hst; rfl
        rw [hsame]
        have := updateReservation_same_status env w1 reservationID r hr1
        generalize updateReservation env w1 r = out2 at this ⊢
        obtain ⟨o2, w2⟩ := out2
        simp only at this
        subst this
        cases o2 <;> exact hres
  · intro hst
    unfold ReleaseFunds getReservation
    cases env.faults.getItem with
    | some e => rfl
    | none =>
      simp only [hr]
      have hsame : ({ r with Status := "released" } : Reservation) = r := by
        cases r; simp only at hst; subst hst; rfl
      rw [hsame]
      have := updateReservation_same_status env w reservationID r hr
      generalize updateReservation env w r = out2 at this ⊢
      obtain ⟨o2, w2⟩ := out2
      simp only at this
      subst this
      cases o2 <;> rfl
  · intro hg hu
    have hload : getReservation env w reservationID = .ok r := by
      simp [getReservation, hg, hr]
    rw [release_loaded s env w reservationID reason r hload hu]
    exact ⟨rfl, setStatus_find_same reservationID "released" w.reservations r hr⟩
  · exact confirm_success_status s env w paymentID reservationID gatewayRef r hr

/-- C5 (amended) at a confirmed and at a released reservation. -/
theorem repeat_call_keeps_status_witness :
    (ConfirmDeduction demoService demoEnv (demoWorld 500 "confirmed") "pay-456" "res-123"
      "gw-ref-xyz").2.reservations = (demoWorld 500 "confirmed").reservations ∧
    (ReleaseFunds demoService demoEnv (demoWorld 500 "released") "res-123"
      "declined by issuer").2.reservations = (demoWorld 500 "released").reservations ∧
    ((ReleaseFunds demoService demoEnv (demoWorld 500 "confirmed") "res-123"
        "declined by issuer").1 = none ∧
      (ReleaseFunds demoService demoEnv (demoWorld 500 "confirmed") "res-123"
        "declined by issuer").2.reservations.find? (fun x => x.ID == "res-123")
        = some { demoReservation "confirmed" with Status := "released" }) ∧
    (ConfirmDeduction demoService demoEnv (demoWorld 500 "released") "pay-456" "res-123"
      "gw-ref-xyz").2.reservations.find? (fun x => x.ID == "res-123")
      = some { demoReservation "released" with Status := "confirmed" } :=
  ⟨(repeat_call_keeps_status demoService demoEnv (demoWorld 500 "confirmed") "pay-456"
      "res-123" "gw-ref-xyz" "declined by issuer" (demoReservation "confirmed")
      (by decide)).1 (by decide),
   (repeat_call_keeps_status demoService demoEnv (demoWorld 500 "released") "pay-456"
      "res-123" "gw-ref-xyz" "declined by issuer" (demoReservation "released")
      (by decide)).2.1 (by decide),
   (repeat_call_keeps_status demoService demoEnv (demoWorld 500 "confirmed") "pay-456"
      "res-123" "gw-ref-xyz" "declined by issuer" (demoReservation "confirmed")
      (by decide)).2.2.1 (by decide) (by decide),
   (repeat_call_keeps_status demoService demoEnv (demoWorld 500 "released") "pay-456"
      "res-123" "gw-ref-xyz" "declined by issuer" (demoReservation "released")
      (by decide)).2.2.2 (by decide)⟩

/-- C6 fails as stated: on a confirmed reservation of 100 with the wallet at balance 500 and
version 1, `ConfirmDeduction` returns no error and the wallet is then at balance 400 and
version 2, not as before the call. -/
theorem confirm_again_not_noop :
    getReservation demoEnv (demoWorld 500 "confirmed") "res-123"
      = .ok (demoReservation "confirmed") ∧
    ConfirmDeduction demoService demoEnv (demoWorld 500 "confirmed") "pay-456" "res-123"
      "gw-ref-xyz"
      = (none, { wallets := [demoWallet 400 2 1000],
                 reservations := [demoReservation "confirmed"], sent := [] }) ∧
    (ConfirmDeduction demoService demoEnv (demoWorld 500 "confirmed") "pay-456" "res-123"
      "gw-ref-xyz").2.wallets ≠ (demoWorld 500 "confirmed").wallets := by
  decide

/-- C6 (amended). `ConfirmDeduction` on an already confirmed reservation is not a no-op: when
the owner's wallet has balance `b ≥ a` and version `v` and the store calls succeed, it
returns no error after debiting the wallet again, leaving balance `b - a` and version
`v + 1`; the reservation stays as it was, confirmed. -/
theorem confirm_again_debits_again (s : Service) (env : Env) (w : World)
    (paymentID reservationID gatewayRef : String) (r : Reservation) (wallet : Wallet)
    (a : Decimal) (hfaults : env.faults = Faults.none) (hseq : env.concurrent = [])
    (hkeys : (w.wallets.map (fun x => x.ID)).Nodup)
    (hr : getReservation env w reservationID = .ok r) (hconfirmed : r.Status = "confirmed")
    (ha : r.Amount = some a)
    (hw : getWalletByUser env w r.UserID = .ok wallet) (hb : a ≤ wallet.Balance) :
    (ConfirmDeduction s env w paymentID reservationID gatewayRef).1 = none ∧
    getWalletByUser env (ConfirmDeduction s env w paymentID reservationID gatewayRef).2 r.UserID
      = .ok { wallet with Balance := wallet.Balance - a, UpdatedAt := env.now,
                          Version := wallet.Version + 1 } ∧
    getReservation env (ConfirmDeduction s env w paymentID reservationID gatewayRef).2
      reservationID = .ok r := by
  have h := confirm_debits_once s env w paymentID reservationID gatewayRef r wallet a hfaults
    hseq hkeys hr ha hw hb
  have hsame : ({ r with Status := "confirmed" } : Reservation) = r := by
    cases r; simp only at hconfirmed; subst hconfirmed; rfl
  rw [hsame] at h
  exact h

/-- C6 (amended) at the confirmed demo reservation. -/
theorem confirm_again_debits_again_witness :
    (ConfirmDeduction demoService demoEnv (demoWorld 500 "confirmed") "pay-456" "res-123"
      "gw-ref-xyz").1 = none ∧
    getWalletByUser demoEnv (ConfirmDeduction demoService demoEnv (demoWorld 500 "confirmed")
      "pay-456" "res-123" "gw-ref-xyz").2 (demoReservation "confirmed").UserID
      = .ok { demoWallet 500 1 0 with Balance := (demoWallet 500 1 0).Balance - 100,
                                      UpdatedAt := demoEnv.now,
                                      Version := (demoWallet 500 1 0).Version + 1 } ∧
    getReservation demoEnv (ConfirmDeduction demoService demoEnv (demoWorld 500 "confirmed")
      "pay-456" "res-123" "gw-ref-xyz").2 "res-123" = .ok (demoReservation "confirmed") :=
  confirm_again_debits_again demoService demoEnv (demoWorld 500 "confirmed") "pay-456"
    "res-123" "gw-ref-xyz" (demoReservation "confirmed") (demoWallet 500 1 0) 100 (by decide)
    (by decide) (by decide) (by decide) (by decide) (by decide) (by decide) (by decide)

/-- The status write changes one stored reservation, in its status only. -/
theorem setStatus_pointwise (id status : String) (rs : List Reservation) (r : Reservation)
    (h : rs.find? (fun x => x.ID == id) = some r) :
    List.Forall₂ (fun x y => y = x ∨ (x.ID = id ∧ y = { x with Status := status }))
      rs (setStatus id status rs) := by
  induction rs with
  | nil => simp at h
  | cons a rs ih =>
    simp only [List.find?_cons] at h
    simp only [setStatus]
    by_cases hk : (a.ID == id) = true
    · simp only [hk, if_true]
      exact List.Forall₂.cons (Or.inr ⟨by simpa using hk, rfl⟩)
        (List.forall₂_same.mpr (fun x _ => Or.inl rfl))
    · simp only [Bool.not_eq_true] at hk
      simp only [hk] at h
      simp only [hk, Bool.false_eq_true, if_false]
      exact List.Forall₂.cons (Or.inl rfl) (ih h)

/-- C7. For an existing active reservation, handling the same rejection twice (two successive
`ReleaseFunds` calls with the same reservation ID, store calls succeeding) returns no error
both times and leaves exactly the world that handling it once leaves: the reservation
released, the wallets and the published messages as they were. -/
theorem release_twice_as_once (s : Service) (env1 env2 : Env) (w : World)
    (reservationID reason : String) (r : Reservation)
    (h1 : env1.faults = Faults.none) (h2 : env2.faults = Faults.none)
    (hr : getReservation env1 w reservationID = .ok r) (_hactive : r.Status = "active") :
    (ReleaseFunds s env1 w reservationID reason).1 = none ∧
    (ReleaseFunds s env2 (ReleaseFunds s env1 w reservationID reason).2
      reservationID reason).1 = none ∧
    (ReleaseFunds s env2 (ReleaseFunds s env1 w reservationID reason).2
      reservationID reason).2 = (ReleaseFunds s env1 w reservationID reason).2 ∧
    getReservation env2 (ReleaseFunds s env2 (ReleaseFunds s env1 w reservationID reason).2
      reservationID reason).2 reservationID = .ok { r with Status := "released" } ∧
    (ReleaseFunds s env2 (ReleaseFunds s env1 w reservationID reason).2
      reservationID reason).2.wallets = w.wallets ∧
    (ReleaseFunds s env2 (ReleaseFunds s env1 w reservationID reason).2
      reservationID reason).2.sent = w.sent := by
  obtain ⟨_, hfind, _⟩ := getReservation_key hr
  have hu1 : env1.faults.updateReservation = none := by rw [h1]; rfl
  have hu2 : env2.faults.updateReservation = none := by rw [h2]; rfl
  have hg2 : env2.faults.getItem = none := by rw [h2]; rfl
  have hfind1 := setStatus_find_same reservationID "released" w.reservations r hfind
  have hload2 : getReservation env2
      { w with reservations := setStatus reservationID "released" w.reservations }
      reservationID = .ok { r with Status := "released" } := by
    simp only [getReservation, hg2, hfind1]
  have hsame := setStatus_same_status reservationID
    (setStatus reservationID "released" w.reservations) { r with Status := "released" } hfind1
  simp only at hsame
  rw [release_loaded s env1 w reservationID reason r hr hu1]
  simp only
  rw [release_loaded s env2 _ reservationID reason _ hload2 hu2]
  simp only [hsame]
  exact ⟨trivial, trivial, trivial, hload2, trivial, trivial⟩

/-- C7 at scenario C delivered twice. -/
theorem release_twice_as_once_witness :
    ReleaseFunds demoService demoEnv (demoWorld 500 "active") "res-123" "declined by issuer"
      = (none, demoWorld 500 "released") ∧
    (ReleaseFunds demoService demoEnv (ReleaseFunds demoService demoEnv (demoWorld 500 "active")
      "res-123" "declined by issuer").2 "res-123" "declined by issuer").2
      = (ReleaseFunds demoService demoEnv (demoWorld 500 "active") "res-123"
          "declined by issuer").2 :=
  ⟨by decide,
   (release_twice_as_once demoService demoEnv demoEnv (demoWorld 500 "active") "res-123"
      "declined by issuer" (demoReservation "active") (by decide) (by decide) (by decide)
      (by decide)).2.2.1⟩

/-- C8. For an existing active reservation and every reason, `ReleaseFunds` (store calls
succeeding) returns no error and sets that reservation's status to released; every stored
reservation is afterwards as it was, except this one, which differs in its status only;
lookups of every other reservation ID are unaffected; no wallet is touched and nothing is
published. -/
theorem release_sets_status_only (s : Service) (env : Env) (w : World)
    (reservationID reason : String) (r : Reservation)
    (hfaults : env.faults = Faults.none)
    (hr : getReservation env w reservationID = .ok r) (_hactive : r.Status = "active") :
    (ReleaseFunds s env w reservationID reason).1 = none ∧
    getReservation env (ReleaseFunds s env w reservationID reason).2 reservationID
      = .ok { r with Status := "released" } ∧
    List.Forall₂ (fun x y => y = x ∨ (x.ID = reservationID ∧ y = { x with Status := "released" }))
      w.reservations (ReleaseFunds s env w reservationID reason).2.reservations ∧
    (∀ other, other ≠ reservationID →
      getReservation env (ReleaseFunds s env w reservationID reason).2 other
        = getReservation env w other) ∧
    (ReleaseFunds s env w reservationID reason).2.wallets = w.wallets ∧
    (ReleaseFunds s env w reservationID reason).2.sent = w.sent := by
  obtain ⟨hg, hfind, _⟩ := getReservation_key hr
  have hu : env.faults.updateReservation = none := by rw [hfaults]; rfl
  rw [release_loaded s env w reservationID reason r hr hu]
  refine ⟨rfl, ?_, setStatus_pointwise reservationID "released" w.reservations r hfind, ?_,
    rfl, rfl⟩
  · simp only [getReservation, hg,
      setStatus_find_same reservationID "released" w.reservations r hfind]
  · intro other hne
    simp only [getReservation, hg,
      setStatus_find_other reservationID "released" other w.reservations hne]

/-- C8 at scenario C: the reservation is released, the wallet is untouched. -/
theorem release_sets_status_only_witness :
    (ReleaseFunds demoService demoEnv (demoWorld 500 "active") "res-123"
      "declined by issuer").1 = none ∧
    getReservation demoEnv (ReleaseFunds demoService demoEnv (demoWorld 500 "active") "res-123"
      "declined by issuer").2 "res-123"
      = .ok { demoReservation "active" with Status := "released" } ∧
    (ReleaseFunds demoService demoEnv (demoWorld 500 "active") "res-123"
      "declined by issuer").2.wallets = (demoWorld 500 "active").wallets :=
  ⟨(release_sets_status_only demoService demoEnv (demoWorld 500 "active") "res-123"
      "declined by issuer" (demoReservation "active") (by decide) (by decide) (by decide)).1,
   (release_sets_status_only demoService demoEnv (demoWorld 500 "active") "res-123"
      "declined by issuer" (demoReservation "active") (by decide) (by decide)
      (by decide)).2.1,
   (release_sets_status_only demoService demoEnv (demoWorld 500 "active") "res-123"
      "declined by issuer" (demoReservation "active") (by decide) (by decide)
      (by decide)).2.2.2.2.1⟩

/-- What `ReserveFunds` returns once the wallet is read, with no store or bus error. -/
theorem reserve_outcome (s : Service) (env : Env) (w : World) (paymentID userID : String)
    (amount : Decimal) (currency : String) (wallet : Wallet)
    (hfaults : env.faults = Faults.none)
    (hw : getWalletByUser env w userID = .ok wallet) :
    (ReserveFunds s env w paymentID userID amount currency).1 =
      if wallet.Balance < amount then some (.reservationFailed "insufficient funds")
      else none := by
  have hp : env.faults.putItem = none := by rw [hfaults]; rfl
  have hb : env.faults.publish = none := by rw [hfaults]; rfl
  by_cases hlt : wallet.Balance < amount
  · simp [ReserveFunds, hw, NewFromString, Decimal.String, hlt, publishReservationFailed]
  · simp [ReserveFunds, hw, NewFromString, Decimal.String, hlt, saveReservation, hp, Publish,
      hb]

/-- C9. For an owner with a wallet of balance `b`, store and bus calls succeeding,
`ReserveFunds` returns no error if and only if `amount ≤ b`, and otherwise the
insufficient-funds rejection; in particular it succeeds at `amount = b` and is rejected at
`amount = b + 1`. -/
theorem reserve_boundary (s : Service) (env : Env) (w : World) (paymentID userID : String)
    (amount : Decimal) (currency : String) (wallet : Wallet)
    (hfaults : env.faults = Faults.none)
    (hw : getWalletByUser env w userID = .ok wallet) :
    ((ReserveFunds s env w paymentID userID amount currency).1 = none ↔
      amount ≤ wallet.Balance) ∧
    (wallet.Balance < amount →
      (ReserveFunds s env w paymentID userID amount currency).1
        = some (.reservationFailed "insufficient funds")) ∧
    (ReserveFunds s env w paymentID userID wallet.Balance currency).1 = none ∧
    (ReserveFunds s env w paymentID userID (wallet.Balance + 1) currency).1
      = some (.reservationFailed "insufficient funds") := by
  refine ⟨?_, ?_, ?_, ?_⟩
  · rw [reserve_outcome s env w paymentID userID amount currency wallet hfaults hw]
    by_cases hlt : wallet.Balance < amount
    · simp [hlt]
    · simp [hlt, Int.not_lt.mp hlt]
  · intro hlt
    rw [reserve_outcome s env w paymentID userID amount currency wallet hfaults hw, if_pos hlt]
  · rw [reserve_outcome s env w paymentID userID wallet.Balance currency wallet hfaults hw]
    simp
  · rw [reserve_outcome s env w paymentID userID (wallet.Balance + 1) currency wallet hfaults hw]
    simp

/-- C9 at a balance of 500: a reservation of 500 succeeds, one of 501 is rejected. -/
theorem reserve_boundary_witness :
    (ReserveFunds demoService demoEnv (demoWorld 500 "active") "pay-789" "user-789"
      (demoWallet 500 1 0).Balance "USD").1 = none ∧
    (ReserveFunds demoService demoEnv (demoWorld 500 "active") "pay-789" "user-789"
      ((demoWallet 500 1 0).Balance + 1) "USD").1
      = some (.reservationFailed "insufficient funds") :=
  (reserve_boundary demoService demoEnv (demoWorld 500 "active") "pay-789" "user-789" 100
    "USD" (demoWallet 500 1 0) (by decide) (by decide)).2.2

/-- C10. For an owner whose wallet balance is strictly below the requested amount,
`ReserveFunds` returns an error whose message contains "insufficient funds" and leaves the
world as it was: no reservation is created and no event is published. -/
theorem reserve_insufficient_funds (s : Service) (env : Env) (w : World)
    (paymentID userID : String) (amount : Decimal) (currency : String) (wallet : Wallet)
    (hw : getWalletByUser env w userID = .ok wallet) (hlt : wallet.Balance < amount) :
    (∃ e, (ReserveFunds s env w paymentID userID amount currency).1 = some e ∧
      ∃ pre post, e.Error = pre ++ "insufficient funds" ++ post) ∧
    (ReserveFunds s env w paymentID userID amount currency).2.reservations = w.reservations ∧
    (ReserveFunds s env w paymentID userID amount currency).2.sent = w.sent ∧
    (ReserveFunds s env w paymentID userID amount currency).2 = w := by
  have hout : ReserveFunds s env w paymentID userID amount currency =
      (some (.reservationFailed "insufficient funds"), w) := by
    simp [ReserveFunds, hw, NewFromString, Decimal.String, hlt, publishReservationFailed]
  rw [hout]
  exact ⟨⟨_, rfl, "reservation failed: ", "", by simp [Err.Error]⟩, rfl, rfl, rfl⟩

/-- C10 at scenario B: balance 50, a reservation of 100 is rejected and the world is as it
was. -/
theorem reserve_insufficient_funds_witness :
    (∃ e, (ReserveFunds demoService demoEnv (demoWorld 50 "active") "pay-789" "user-789" 100
        "USD").1 = some e ∧ ∃ pre post, e.Error = pre ++ "insufficient funds" ++ post) ∧
    (ReserveFunds demoService demoEnv (demoWorld 50 "active") "pay-789" "user-789" 100
      "USD").2 = demoWorld 50 "active" :=
  ⟨(reserve_insufficient_funds demoService demoEnv (demoWorld 50 "active") "pay-789"
      "user-789" 100 "USD" (demoWallet 50 1 0) (by decide) (by decide)).1,
   (reserve_insufficient_funds demoService demoEnv (demoWorld 50 "active") "pay-789"
      "user-789" 100 "USD" (demoWallet 50 1 0) (by decide) (by decide)).2.2.2⟩

/-- Every path through `ReserveFunds`, by what the wallet read, the reservation write and the
publish return. -/
theorem reserve_cases (s : Service) (env : Env) (w : World) (paymentID userID : String)
    (amount : Decimal) (currency : String) :
    ReserveFunds s env w paymentID userID amount currency =
      match getWalletByUser env w userID with
      | .error err => (some (.reservationFailed err.Error), w)
      | .ok wallet =>
        if wallet.Balance < amount then (some (.reservationFailed "insufficient funds"), w)
        else
          match env.faults.putItem with
          | some e => (some (.wrapped "save reservation" (.infra e)), w)
          | none =>
            match env.faults.publish with
            | some e =>
              (some (.infra e),
                { wallets := w.wallets,
                  reservations :=
                    putItem
                      { ExpiresAt := env.now + 15 * 60, CreatedAt := env.now,
                        ID := env.reservationID, PaymentID := paymentID, UserID := userID,
                        Amount := some amount, Currency := currency, Status := "active" }
                      w.reservations,
                  sent := w.sent })
            | none =>
              (none,
                { wallets := w.wallets,
                  reservations :=
                    putItem
                      { ExpiresAt := env.now + 15 * 60, CreatedAt := env.now,
                        ID := env.reservationID, PaymentID := paymentID, UserID := userID,
                        Amount := some amount, Currency := currency, Status := "active" }
                      w.reservations,
                  sent := w.sent ++ [(s.gatewayQueueURL,
                    { ID := env.eventID, EventType := "wallet.funds_reserved",
                      OccurredAt := env.now, PaymentID := paymentID, UserID := userID,
                      Amount := amount, Currency := currency, Reason := "",
                      ReservationID := env.reservationID, GatewayRef := "" })] }) := by
  unfold ReserveFunds
  cases getWalletByUser env w userID with
  | error err => rfl
  | ok wallet =>
    simp only [NewFromString, Decimal.String, publishReservationFailed]
    by_cases hlt : wallet.Balance < amount
    · simp only [hlt, if_true]
    · simp only [hlt, if_false, saveReservation]
      cases env.faults.putItem with
      | some e => rfl
      | none =>
        simp only [Publish]
        cases env.faults.publish with
        | some e => rfl
        | none => rfl

/-- The owner query reports `ErrWalletNotFound` exactly when it goes through and the table
holds no wallet of the owner. -/
theorem wallet_not_found_iff (env : Env) (w : World) (userID : String) :
    getWalletByUser env w userID = .error .ErrWalletNotFound ↔
      env.faults.query = none ∧ ∀ x ∈ w.wallets, x.UserID ≠ userID := by
  unfold getWalletByUser
  cases env.faults.query with
  | some e => simp
  | none =>
    cases hf : w.wallets.find? (fun x => x.UserID == userID) with
    | none =>
      simp only [true_and, true_iff]
      intro x hx
      simpa using (List.find?_eq_none.mp hf) x hx
    | some wallet =>
      simp only [true_and, false_iff, reduceCtorEq]
      intro hall
      exact hall wallet (List.mem_of_find?_eq_some hf) (by simpa using List.find?_some hf)

/-- C11. For an owner that has no wallet (the owner query finds none), `ReserveFunds` returns
the error "reservation failed: wallet not found", whose message contains "wallet not found",
and leaves the world as it was: no reservation is created and no event is published. -/
theorem reserve_wallet_not_found (s : Service) (env : Env) (w : World)
    (paymentID userID : String) (amount : Decimal) (currency : String)
    (hnone : getWalletByUser env w userID = .error .ErrWalletNotFound) :
    (∃ e, (ReserveFunds s env w paymentID userID amount currency).1 = some e ∧
      e = .reservationFailed "wallet not found" ∧
      ∃ pre post, e.Error = pre ++ "wallet not found" ++ post) ∧
    (ReserveFunds s env w paymentID userID amount currency).2.reservations = w.reservations ∧
    (ReserveFunds s env w paymentID userID amount currency).2.sent = w.sent ∧
    (ReserveFunds s env w paymentID userID amount currency).2 = w := by
  rw [reserve_cases, hnone]
  exact ⟨⟨_, rfl, rfl, "reservation failed: ", "", by simp [Err.Error]⟩, rfl, rfl, rfl⟩

/-- C11 at an owner without a wallet. -/
theorem reserve_wallet_not_found_witness :
    (∃ e, (ReserveFunds demoService demoEnv (demoWorld 500 "active") "pay-789" "unknown-user"
        100 "USD").1 = some e ∧ e = .reservationFailed "wallet not found" ∧
        ∃ pre post, e.Error = pre ++ "wallet not found" ++ post) ∧
    (ReserveFunds demoService demoEnv (demoWorld 500 "active") "pay-789" "unknown-user" 100
      "USD").2 = demoWorld 500 "active" :=
  ⟨(reserve_wallet_not_found demoService demoEnv (demoWorld 500 "active") "pay-789"
      "unknown-user" 100 "USD" (by decide)).1,
   (reserve_wallet_not_found demoService demoEnv (demoWorld 500 "active") "pay-789"
      "unknown-user" 100 "USD" (by decide)).2.2.2⟩

/-- C12. When `ReserveFunds` returns no error, the reservations table holds what it held
(less any item under the new reservation's ID) plus one new reservation, active, with the
given payment ID, owner, amount and currency; with a fresh ID that is the old table with the
reservation appended.  Exactly one message has been published: to the gateway queue, an
event of kind wallet.funds_reserved with the same payment ID, owner, amount and currency and
the new reservation's ID.  The wallets are as they were. -/
theorem reserve_success_effects (s : Service) (env : Env) (w : World)
    (paymentID userID : String) (amount : Decimal) (currency : String)
    (hok : (ReserveFunds s env w paymentID userID amount currency).1 = none) :
    (ReserveFunds s env w paymentID userID amount currency).2.reservations
      = putItem
          { ExpiresAt := env.now + 15 * 60, CreatedAt := env.now, ID := env.reservationID,
            PaymentID := paymentID, UserID := userID, Amount := some amount,
            Currency := currency, Status := "active" } w.reservations ∧
    ((∀ x ∈ w.reservations, x.ID ≠ env.reservationID) →
      (ReserveFunds s env w paymentID userID amount currency).2.reservations
        = w.reservations ++
          [{ ExpiresAt := env.now + 15 * 60, CreatedAt := env.now, ID := env.reservationID,
             PaymentID := paymentID, UserID := userID, Amount := some amount,
             Currency := currency, Status := "active" }]) ∧
    (ReserveFunds s env w paymentID userID amount currency).2.sent
      = w.sent ++ [(s.gatewayQueueURL,
          { ID := env.eventID, EventType := FundsReserved, OccurredAt := env.now,
            PaymentID := paymentID, UserID := userID, Amount := amount, Currency := currency,
            Reason := "", ReservationID := env.reservationID, GatewayRef := "" })] ∧
    (ReserveFunds s env w paymentID userID amount currency).2.wallets = w.wallets := by
  rw [reserve_cases] at hok ⊢
  cases hw : getWalletByUser env w userID with
  | error err => simp [hw] at hok
  | ok wallet =>
    simp only [hw] at hok ⊢
    by_cases hlt : wallet.Balance < amount
    · simp [hlt] at hok
    · simp only [hlt, if_false] at hok ⊢
      cases hp : env.faults.putItem with
      | some e => simp [hp] at hok
      | none =>
        simp only [hp] at hok ⊢
        cases hb : env.faults.publish with
        | some e => simp [hb] at hok
        | none =>
          simp only [hb]
          refine ⟨by trivial, ?_, rfl, by trivial⟩
          intro hfresh
          have hkeep : w.reservations.filter (fun x => x.ID != env.reservationID)
              = w.reservations := by
            rw [List.filter_eq_self]
            intro x hx
            simpa using hfresh x hx
          simp only [putItem, hkeep]

/-- C12 at scenario A's reservation: 100 reserved against a balance of 500. -/
theorem reserve_success_effects_witness :
    (ReserveFunds demoService demoEnv (demoWorld 500 "active") "pay-789" "user-789" 100
      "USD").2.reservations
      = (demoWorld 500 "active").reservations ++
        [{ ExpiresAt := demoEnv.now + 15 * 60, CreatedAt := demoEnv.now,
           ID := demoEnv.reservationID, PaymentID := "pay-789", UserID := "user-789",
           Amount := some 100, Currency := "USD", Status := "active" }] ∧
    (ReserveFunds demoService demoEnv (demoWorld 500 "active") "pay-789" "user-789" 100
      "USD").2.sent
      = (demoWorld 500 "active").sent ++ [(demoService.gatewayQueueURL,
          { ID := demoEnv.eventID, EventType := FundsReserved, OccurredAt := demoEnv.now,
            PaymentID := "pay-789", UserID := "user-789", Amount := 100, Currency := "USD",
            Reason := "", ReservationID := demoEnv.reservationID, GatewayRef := "" })] :=
  ⟨(reserve_success_effects demoService demoEnv (demoWorld 500 "active") "pay-789" "user-789"
      100 "USD" (by decide)).2.1 (by decide),
   (reserve_success_effects demoService demoEnv (demoWorld 500 "active") "pay-789" "user-789"
      100 "USD" (by decide)).2.2.1⟩

/-- C13. Whatever the input and the outcome (success, rejection, store or publish failure),
`ReserveFunds` leaves the wallets table exactly as it was: the balance and the version of every
wallet are unchanged. -/
theorem reserve_never_touches_wallets (s : Service) (env : Env) (w : World)
    (paymentID userID : String) (amount : Decimal) (currency : String) :
    (ReserveFunds s env w paymentID userID amount currency).2.wallets = w.wallets := by
  rw [reserve_cases]
  cases getWalletByUser env w userID with
  | error err => rfl
  | ok wallet =>
    simp only
    by_cases hlt : wallet.Balance < amount
    · simp only [hlt, if_true]
    · simp only [hlt, if_false]
      cases env.faults.putItem with
      | some e => rfl
      | none =>
        cases env.faults.publish with
        | some e => rfl
        | none => rfl

/-- C26 fails as stated: a debit of 100 on a wallet with balance 50, issued on the stored
version, fails with the store's conditional-check error, not with `ErrInsufficientFunds`,
and a debit that fails on a stale version returns the very same error. -/
theorem insufficient_debit_not_distinguished :
    getWalletByUser demoEnv (demoWorld 50 "active") "user-789" = .ok (demoWallet 50 1 0) ∧
    deductFromWallet demoEnv (demoWorld 50 "active") "user-789" 100
      = (some .conditionalCheckFailed, demoWorld 50 "active") ∧
    (deductFromWallet demoEnv (demoWorld 50 "active") "user-789" 100).1
      ≠ some .ErrInsufficientFunds ∧
    (deductFromWallet racingEnv (demoWorld 500 "active") "user-789" 100).1
      = (deductFromWallet demoEnv (demoWorld 50 "active") "user-789" 100).1 := by
  decide

/-- C26 (amended). A debit whose expected version matches the stored version but whose amount
exceeds the stored balance fails with the store's conditional-check error and writes nothing:
the stored wallet is as it was.  The error is the one a version mismatch produces, so the two
outcomes cannot be told apart; `ErrInsufficientFunds` is never what the debit returns. -/
theorem insufficient_debit_conditional_check (env : Env) (w : World) (userID : String)
    (amount : Decimal) (wallet stored : Wallet)
    (hw : getWalletByUser env w userID = .ok wallet)
    (hu : env.faults.updateWallet = none)
    (hs : getWallet (landWrites w.wallets env.concurrent) wallet.ID = some stored)
    (_hv : stored.Version = wallet.Version) (hlt : stored.Balance < amount) :
    deductFromWallet env w userID amount
      = (some .conditionalCheckFailed,
          { w with wallets := landWrites w.wallets env.concurrent }) ∧
    getWallet (deductFromWallet env w userID amount).2.wallets wallet.ID = some stored ∧
    (∀ (env2 : Env) (w2 : World) (userID2 : String) (amount2 : Decimal)
        (wallet2 stored2 : Wallet),
      getWalletByUser env2 w2 userID2 = .ok wallet2 → env2.faults.updateWallet = none →
      getWallet (landWrites w2.wallets env2.concurrent) wallet2.ID = some stored2 →
      stored2.Version ≠ wallet2.Version →
      (deductFromWallet env2 w2 userID2 amount2).1 = (deductFromWallet env w userID amount).1) ∧
    (∀ (env2 : Env) (w2 : World) (userID2 : String) (amount2 : Decimal),
      (deductFromWallet env2 w2 userID2 amount2).1 ≠ some .ErrInsufficientFunds) := by
  obtain ⟨hq, hfind⟩ := getWalletByUser_key hw
  have hout := (debit_failure_causes env w userID amount hq hu).2 wallet stored hfind hs
    (Or.inl hlt)
  refine ⟨hout, ?_, ?_, ?_⟩
  · rw [hout]; exact hs
  · intro env2 w2 userID2 amount2 wallet2 stored2 hw2 hu2 hs2 hv2
    obtain ⟨hq2, hfind2⟩ := getWalletByUser_key hw2
    rw [hout, (debit_failure_causes env2 w2 userID2 amount2 hq2 hu2).2 wallet2 stored2 hfind2
      hs2 (Or.inr hv2)]
  · intro env2 w2 userID2 amount2
    unfold deductFromWallet getWalletByUser
    cases env2.faults.query with
    | some e => simp
    | none =>
      simp only
      cases w2.wallets.find? (fun x => x.UserID == userID2) with
      | none => simp
      | some wallet2 =>
        simp only
        cases env2.faults.updateWallet with
        | some e => simp
        | none =>
          simp only
          split <;> simp

/-- C26 (amended) at a debit of 100 on a balance of 50. -/
theorem insufficient_debit_conditional_check_witness :
    deductFromWallet demoEnv (demoWorld 50 "active") "user-789" 100
      = (some .conditionalCheckFailed,
          { demoWorld 50 "active" with
            wallets := landWrites (demoWorld 50 "active").wallets demoEnv.concurrent }) :=
  (insufficient_debit_conditional_check demoEnv (demoWorld 50 "active") "user-789" 100
    (demoWallet 50 1 0) (demoWallet 50 1 0) (by decide) (by decide) (by decide) (by decide)
    (by decide)).1

/-- A debit that meets no store error and no concurrent write, on a wallet that covers the
amount, rewrites that wallet in place. -/
theorem deduct_success (env : Env) (w : World) (userID : String) (a : Decimal)
    (wallet : Wallet) (hkeys : (w.wallets.map (fun x => x.ID)).Nodup)
    (hw : getWalletByUser env w userID = .ok wallet) (hseq : env.concurrent = [])
    (hu : env.faults.updateWallet = none) (hb : a ≤ wallet.Balance) :
    ∃ pre post, w.wallets = pre ++ wallet :: post ∧ (∀ y ∈ pre, y.UserID ≠ userID) ∧
      (∀ y ∈ pre, y.ID ≠ wallet.ID) ∧ wallet.UserID = userID ∧
      deductFromWallet env w userID a =
        (none, { w with wallets :=
          pre ++ debitItem ⟨wallet.ID, a, wallet.Version, env.now⟩ wallet :: post }) := by
  obtain ⟨_, hwf⟩ := getWalletByUser_key hw
  obtain ⟨pre, post, hws, hpreU, hpreK, hu'⟩ := owner_query_split hkeys hwf
  have hcond : debitCondition ⟨wallet.ID, a, wallet.Version, env.now⟩ wallet = true := by
    simp [debitCondition, hb]
  have hdebit := conditionalDebit_split ⟨wallet.ID, a, wallet.Version, env.now⟩ pre post wallet
    hpreK rfl
  rw [hcond, if_pos rfl, ← hws] at hdebit
  refine ⟨pre, post, hws, hpreU, hpreK, hu', ?_⟩
  simp [deductFromWallet, hw, hseq, landWrites, hu, hdebit]

/-- C29 fails as stated: with a balance of 150 and a reservation of 100, the run whose status
update fails leaves the wallet debited to 50 and the reservation active, and the redelivered
confirmation, its store calls succeeding, fails on the debit's condition and debits nothing:
the balance stays at 50. -/
theorem redelivery_may_not_debit :
    ConfirmDeduction demoService
      { demoEnv with faults := { Faults.none with updateReservation := some "timeout" } }
      (demoWorld 150 "active") "pay-456" "res-123" "gw-ref-xyz"
      = (some (.infra "timeout"),
          { wallets := [demoWallet 50 2 1000], reservations := [demoReservation "active"],
            sent := [] }) ∧
    ConfirmDeduction demoService demoEnv
      (ConfirmDeduction demoService
        { demoEnv with faults := { Faults.none with updateReservation := some "timeout" } }
        (demoWorld 150 "active") "pay-456" "res-123" "gw-ref-xyz").2
      "pay-456" "res-123" "gw-ref-xyz"
      = (some .conditionalCheckFailed,
          { wallets := [demoWallet 50 2 1000], reservations := [demoReservation "active"],
            sent := [] }) := by
  decide

/-- C29 (amended). The two writes of `ConfirmDeduction` are not atomic.  On the run where the
wallet debit succeeds and the reservation's status update then fails with `e`,
`ConfirmDeduction` returns that error, the wallet stays debited (balance less the amount,
version + 1) and the reservations table is as it was, the reservation's status included.  A
redelivered confirmation whose store calls succeed then debits the wallet a second time when
the balance left still covers the amount; when it does not, the redelivery fails on the
debit's condition and leaves the world as the first run left it. -/
theorem confirm_not_atomic (s : Service) (env : Env) (w : World)
    (paymentID reservationID gatewayRef : String) (r : Reservation) (wallet : Wallet)
    (a : Decimal) (e : String)
    (hkeys : (w.wallets.map (fun x => x.ID)).Nodup)
    (hr : getReservation env w reservationID = .ok r) (ha : r.Amount = some a)
    (hw : getWalletByUser env w r.UserID = .ok wallet) (hb : a ≤ wallet.Balance)
    (hseq : env.concurrent = []) (hu : env.faults.updateWallet = none)
    (hfail : env.faults.updateReservation = some e) :
    (ConfirmDeduction s env w paymentID reservationID gatewayRef).1 = some (.infra e) ∧
    getWalletByUser env (ConfirmDeduction s env w paymentID reservationID gatewayRef).2 r.UserID
      = .ok { wallet with Balance := wallet.Balance - a, UpdatedAt := env.now,
                          Version := wallet.Version + 1 } ∧
    (ConfirmDeduction s env w paymentID reservationID gatewayRef).2.reservations
      = w.reservations ∧
    getReservation env (ConfirmDeduction s env w paymentID reservationID gatewayRef).2
      reservationID = .ok r ∧
    (∀ env2 : Env, env2.faults = Faults.none → env2.concurrent = [] →
      (a ≤ wallet.Balance - a →
        (ConfirmDeduction s env2
          (ConfirmDeduction s env w paymentID reservationID gatewayRef).2
          paymentID reservationID gatewayRef).1 = none ∧
        getWalletByUser env2
          (ConfirmDeduction s env2
            (ConfirmDeduction s env w paymentID reservationID gatewayRef).2
            paymentID reservationID gatewayRef).2 r.UserID
          = .ok { wallet with Balance := wallet.Balance - a - a, UpdatedAt := env2.now,
                              Version := wallet.Version + 1 + 1 }) ∧
      (wallet.Balance - a < a →
        ConfirmDeduction s env2
          (ConfirmDeduction s env w paymentID reservationID gatewayRef).2
          paymentID reservationID gatewayRef
          = (some .conditionalCheckFailed,
              (ConfirmDeduction s env w paymentID reservationID gatewayRef).2))) := by
  obtain ⟨hg, hfind, _⟩ := getReservation_key hr
  obtain ⟨hq, _⟩ := getWalletByUser_key hw
  obtain ⟨pre, post, hws, hpreU, hpreK, hu', hdeduct⟩ :=
    deduct_success env w r.UserID a wallet hkeys hw hseq hu hb
  have hout : ConfirmDeduction s env w paymentID reservationID gatewayRef =
      (some (.infra e),
        { w with wallets :=
          pre ++ debitItem ⟨wallet.ID, a, wallet.Version, env.now⟩ wallet :: post }) := by
    simp [ConfirmDeduction, hr, ha, NewFromString, hdeduct, updateReservation, hfail]
  have hquery : ∀ env' : Env, env'.faults.query = none →
      getWalletByUser env'
        { w with wallets :=
          pre ++ debitItem ⟨wallet.ID, a, wallet.Version, env.now⟩ wallet :: post } r.UserID
        = .ok (debitItem ⟨wallet.ID, a, wallet.Version, env.now⟩ wallet) := by
    intro env' hq'
    simp only [getWalletByUser, hq']
    rw [owner_query_after_debit _ pre post wallet r.UserID hpreU hu']
  rw [hout]
  refine ⟨rfl, hquery env hq, rfl, ?_, ?_⟩
  · simp only [getReservation, hg, hfind]
  · intro env2 hfaults2 hseq2
    have hg2 : env2.faults.getItem = none := by rw [hfaults2]; rfl
    have hq2 : env2.faults.query = none := by rw [hfaults2]; rfl
    have hu2 : env2.faults.updateWallet = none := by rw [hfaults2]; rfl
    have hr2 : getReservation env2
        { w with wallets :=
          pre ++ debitItem ⟨wallet.ID, a, wallet.Version, env.now⟩ wallet :: post }
        reservationID = .ok r := by
      simp only [getReservation, hg2, hfind]
    refine ⟨?_, ?_⟩
    · intro hb2
      have hkeys2 : ((pre ++ debitItem ⟨wallet.ID, a, wallet.Version, env.now⟩ wallet ::
          post).map (fun x => x.ID)).Nodup := by
        rw [hws] at hkeys
        simpa [debitItem] using hkeys
      have h2 := confirm_debits_once s env2
        { w with wallets :=
          pre ++ debitItem ⟨wallet.ID, a, wallet.Version, env.now⟩ wallet :: post }
        paymentID reservationID gatewayRef r
        (debitItem ⟨wallet.ID, a, wallet.Version, env.now⟩ wallet) a hfaults2 hseq2 hkeys2
        hr2 ha (hquery env2 hq2) (by simpa [debitItem] using hb2)
      exact ⟨h2.1, h2.2.1⟩
    · intro hlt
      have hfind2 := (getWalletByUser_key (hquery env2 hq2)).2
      have hs : getWallet
          (landWrites
            (pre ++ debitItem ⟨wallet.ID, a, wallet.Version, env.now⟩ wallet :: post)
            env2.concurrent)
          (debitItem ⟨wallet.ID, a, wallet.Version, env.now⟩ wallet).ID
          = some (debitItem ⟨wallet.ID, a, wallet.Version, env.now⟩ wallet) := by
        rw [hseq2]
        exact getWallet_split pre post _ _ hpreK rfl
      have hd := (debit_failure_causes env2
        { w with wallets :=
          pre ++ debitItem ⟨wallet.ID, a, wallet.Version, env.now⟩ wallet :: post }
        r.UserID a hq2 hu2).2 _ _ hfind2 hs (Or.inl (by simpa [debitItem] using hlt))
      simp only [hseq2, landWrites, List.foldl_nil] at hd
      simp [ConfirmDeduction, hr2, ha, NewFromString, hd]

/-- C29 (amended) at scenario A with the status update failing: the wallet goes from 500 to
400 while the reservation stays active, and the redelivery takes it to 300; and at a balance
of 150, where the redelivery fails and changes nothing. -/
theorem confirm_not_atomic_witness :
    ((ConfirmDeduction demoService
      { demoEnv with faults := { Faults.none with updateReservation := some "timeout" } }
      (demoWorld 500 "active") "pay-456" "res-123" "gw-ref-xyz").1
      = some (.infra "timeout") ∧
    (ConfirmDeduction demoService demoEnv
      (ConfirmDeduction demoService
        { demoEnv with faults := { Faults.none with updateReservation := some "timeout" } }
        (demoWorld 500 "active") "pay-456" "res-123" "gw-ref-xyz").2
      "pay-456" "res-123" "gw-ref-xyz").1 = none ∧
    getWalletByUser demoEnv
      (ConfirmDeduction demoService demoEnv
        (ConfirmDeduction demoService
          { demoEnv with faults := { Faults.none with updateReservation := some "timeout" } }
          (demoWorld 500 "active") "pay-456" "res-123" "gw-ref-xyz").2
        "pay-456" "res-123" "gw-ref-xyz").2 (demoReservation "active").UserID
      = .ok { demoWallet 500 1 0 with
              Balance := (demoWallet 500 1 0).Balance - 100 - 100,
              UpdatedAt := demoEnv.now, Version := (demoWallet 500 1 0).Version + 1 + 1 }) ∧
    ConfirmDeduction demoService demoEnv
      (ConfirmDeduction demoService
        { demoEnv with faults := { Faults.none with updateReservation := some "timeout" } }
        (demoWorld 150 "active") "pay-456" "res-123" "gw-ref-xyz").2
      "pay-456" "res-123" "gw-ref-xyz"
      = (some .conditionalCheckFailed,
          (ConfirmDeduction demoService
            { demoEnv with
              faults := { Faults.none with updateReservation := some "timeout" } }
            (demoWorld 150 "active") "pay-456" "res-123" "gw-ref-xyz").2) :=
  ⟨⟨(confirm_not_atomic demoService
      { demoEnv with faults := { Faults.none with updateReservation := some "timeout" } }
      (demoWorld 500 "active") "pay-456" "res-123" "gw-ref-xyz"
      (demoReservation "active") (demoWallet 500 1 0) 100 "timeout" (by decide) (by decide)
      (by decide) (by decide) (by decide) (by decide) (by decide) (by decide)).1,
    ((confirm_not_atomic demoService
      { demoEnv with faults := { Faults.none with updateReservation := some "timeout" } }
      (demoWorld 500 "active") "pay-456" "res-123" "gw-ref-xyz"
      (demoReservation "active") (demoWallet 500 1 0) 100 "timeout" (by decide) (by decide)
      (by decide) (by decide) (by decide) (by decide) (by decide) (by decide)).2.2.2.2
      demoEnv (by decide) (by decide)).1 (by decide)⟩,
   ((confirm_not_atomic demoService
      { demoEnv with faults := { Faults.none with updateReservation := some "timeout" } }
      (demoWorld 150 "active") "pay-456" "res-123" "gw-ref-xyz"
      (demoReservation "active") (demoWallet 150 1 0) 100 "timeout" (by decide) (by decide)
      (by decide) (by decide) (by decide) (by decide) (by decide) (by decide)).2.2.2.2
      demoEnv (by decide) (by decide)).2 (by decide)⟩

/-- C30. Neither `ReserveFunds` nor the debit checks the sign of the amount.  For a wallet
with balance `b ≥ 0` and every amount `a ≤ 0`, zero included, `ReserveFunds` (store and bus
calls succeeding) returns no error and puts an active reservation of amount `a`; and when `a`
is negative, confirming any reservation of amount `a` against a wallet of balance `b ≥ 0`
(store calls succeeding) returns no error and leaves the balance at `b - a`, strictly above
`b`. -/
theorem negative_amounts_accepted (s : Service) (env : Env) (w : World)
    (paymentID userID currency : String) (a : Decimal) (wallet : Wallet)
    (hfaults : env.faults = Faults.none)
    (hw : getWalletByUser env w userID = .ok wallet)
    (hb : 0 ≤ wallet.Balance) (ha : a ≤ 0) :
    ((ReserveFunds s env w paymentID userID a currency).1 = none ∧
      (ReserveFunds s env w paymentID userID a currency).2.reservations
        = putItem
            { ExpiresAt := env.now + 15 * 60, CreatedAt := env.now, ID := env.reservationID,
              PaymentID := paymentID, UserID := userID, Amount := some a,
              Currency := currency, Status := "active" } w.reservations) ∧
    (∀ (env2 : Env) (w2 : World) (paymentID2 reservationID gatewayRef : String)
        (r : Reservation) (wallet2 : Wallet),
      env2.faults = Faults.none → env2.concurrent = [] →
      (w2.wallets.map (fun x => x.ID)).Nodup →
      getReservation env2 w2 reservationID = .ok r → r.Amount = some a → a < 0 →
      getWalletByUser env2 w2 r.UserID = .ok wallet2 → 0 ≤ wallet2.Balance →
      (ConfirmDeduction s env2 w2 paymentID2 reservationID gatewayRef).1 = none ∧
      getWalletByUser env2 (ConfirmDeduction s env2 w2 paymentID2 reservationID gatewayRef).2
        r.UserID
        = .ok { wallet2 with Balance := wallet2.Balance - a, UpdatedAt := env2.now,
                             Version := wallet2.Version + 1 } ∧
      wallet2.Balance < wallet2.Balance - a) := by
  refine ⟨?_, ?_⟩
  · have hp : env.faults.putItem = none := by rw [hfaults]; rfl
    have hpub : env.faults.publish = none := by rw [hfaults]; rfl
    have hnot : ¬ wallet.Balance < a := not_lt.mpr (le_trans ha hb)
    rw [reserve_cases]
    simp only [hw, hnot, if_false, hp, hpub]
    exact ⟨by trivial, by trivial⟩
  · intro env2 w2 paymentID2 reservationID gatewayRef r wallet2 hfaults2 hseq2 hkeys2 hr2
      hamount2 hneg hw2 hb2
    have h := confirm_debits_once s env2 w2 paymentID2 reservationID gatewayRef r wallet2 a
      hfaults2 hseq2 hkeys2 hr2 hamount2 hw2 (le_trans (le_of_lt hneg) hb2)
    exact ⟨h.1, h.2.1, by linarith⟩

/-- C30 at a wallet of balance 500: a reservation of amount 0 is created, a reservation of
amount -100 is created, and confirming that one takes the balance from 500 to 600. -/
theorem negative_amounts_accepted_witness :
    ((ReserveFunds demoService demoEnv (demoWorld 500 "active") "pay-789" "user-789" 0
      "USD").1 = none ∧
    (ReserveFunds demoService demoEnv (demoWorld 500 "active") "pay-789" "user-789" 0
      "USD").2.reservations
      = putItem
          { ExpiresAt := demoEnv.now + 15 * 60, CreatedAt := demoEnv.now,
            ID := demoEnv.reservationID, PaymentID := "pay-789", UserID := "user-789",
            Amount := some 0, Currency := "USD", Status := "active" }
          (demoWorld 500 "active").reservations) ∧
    (ReserveFunds demoService demoEnv (demoWorld 500 "active") "pay-789" "user-789" (-100)
      "USD").1 = none ∧
    ((ConfirmDeduction demoService demoEnv
      (ReserveFunds demoService demoEnv (demoWorld 500 "active") "pay-789" "user-789" (-100)
        "USD").2 "pay-789" demoEnv.reservationID "gw-ref-xyz").1 = none ∧
    getWalletByUser demoEnv
      (ConfirmDeduction demoService demoEnv
        (ReserveFunds demoService demoEnv (demoWorld 500 "active") "pay-789" "user-789"
          (-100) "USD").2 "pay-789" demoEnv.reservationID "gw-ref-xyz").2
      ({ ExpiresAt := demoEnv.now + 15 * 60, CreatedAt := demoEnv.now,
         ID := demoEnv.reservationID, PaymentID := "pay-789", UserID := "user-789",
         Amount := some (-100), Currency := "USD", Status := "active" } : Reservation).UserID
      = .ok { demoWallet 500 1 0 with
              Balance := (demoWallet 500 1 0).Balance - (-100), UpdatedAt := demoEnv.now,
              Version := (demoWallet 500 1 0).Version + 1 } ∧
    (demoWallet 500 1 0).Balance < (demoWallet 500 1 0).Balance - (-100)) :=
  ⟨(negative_amounts_accepted demoService demoEnv (demoWorld 500 "active") "pay-789"
      "user-789" "USD" 0 (demoWallet 500 1 0) (by decide) (by decide) (by decide)
      (by decide)).1,
   (negative_amounts_accepted demoService demoEnv (demoWorld 500 "active") "pay-789"
      "user-789" "USD" (-100) (demoWallet 500 1 0) (by decide) (by decide) (by decide)
      (by decide)).1.1,
   (negative_amounts_accepted demoService demoEnv (demoWorld 500 "active") "pay-789"
      "user-789" "USD" (-100) (demoWallet 500 1 0) (by decide) (by decide) (by decide)
      (by decide)).2 demoEnv
      (ReserveFunds demoService demoEnv (demoWorld 500 "active") "pay-789" "user-789" (-100)
        "USD").2 "pay-789" demoEnv.reservationID "gw-ref-xyz"
      { ExpiresAt := demoEnv.now + 15 * 60, CreatedAt := demoEnv.now,
        ID := demoEnv.reservationID, PaymentID := "pay-789", UserID := "user-789",
        Amount := some (-100), Currency := "USD", Status := "active" }
      (demoWallet 500 1 0) (by decide) (by decide) (by decide) (by decide) (by decide)
      (by decide) (by decide) (by decide)⟩

end WalletService

namespace ErrorHandler

open Events

theorem isRetryable_iff (eventType : String) :
    isRetryable eventType = true ↔
      eventType = PaymentInitiated ∨ eventType = FundsReserved := by
  simp [isRetryable]

/-- C14. For a message whose body decodes to an event of kind payment.initiated or
wallet.funds_reserved (the kinds `isRetryable` accepts, and no other) and whose retry count
is below `maxRetries`, `HandleFailedEvent` hands that event to the publisher exactly once,
hands no `FailedEvent` to the store, and returns what the publish returns: no error when the
publish succeeds. -/
theorem retry_republishes_once (unmarshal : Unmarshal) (s : Service) (env : Env) (w : World)
    (messageID body source : String) (retryCount : Int) (event : Event)
    (hparse : unmarshal body = .ok event)
    (hkind : event.EventType = PaymentInitiated ∨ event.EventType = FundsReserved)
    (hlt : retryCount < s.maxRetries) :
    (HandleFailedEvent unmarshal s env w messageID body source retryCount).2.published
      = w.published ++ [(s.walletQueueURL, event)] ∧
    (HandleFailedEvent unmarshal s env w messageID body source retryCount).2.puts = w.puts ∧
    (env.publish = none →
      (HandleFailedEvent unmarshal s env w messageID body source retryCount).1 = none) ∧
    (∀ e, env.publish = some e →
      (HandleFailedEvent unmarshal s env w messageID body source retryCount).1
        = some (.infra e)) ∧
    (∀ kind, isRetryable kind = true ↔ kind = PaymentInitiated ∨ kind = FundsReserved) := by
  have hr : isRetryable event.EventType = true := (isRetryable_iff _).mpr hkind
  have hout : HandleFailedEvent unmarshal s env w messageID body source retryCount
      = (env.publish.map Err.infra,
          { w with published := w.published ++ [(s.walletQueueURL, event)] }) := by
    simp only [HandleFailedEvent, hparse, hr, hlt, decide_True, Bool.and_self, if_true,
      retryEvent, Publish]
    cases env.publish <;> rfl
  rw [hout]
  refine ⟨rfl, rfl, ?_, ?_, isRetryable_iff⟩
  · intro h; simp [h]
  · intro e h; simp [h]

/-- C14 at scenario E: a payment.initiated event at attempt 2 of 3 is re-published. -/
theorem retry_republishes_once_witness :
    (HandleFailedEvent demoUnmarshal demoService demoEnv emptyWorld "msg-123"
      "payment.initiated" "wallet-queue-dlq" 2).2.published
      = emptyWorld.published ++ [(demoService.walletQueueURL, demoEvent PaymentInitiated)] ∧
    (HandleFailedEvent demoUnmarshal demoService demoEnv emptyWorld "msg-123"
      "payment.initiated" "wallet-queue-dlq" 2).2.puts = emptyWorld.puts ∧
    (HandleFailedEvent demoUnmarshal demoService demoEnv emptyWorld "msg-123"
      "payment.initiated" "wallet-queue-dlq" 2).1 = none :=
  ⟨(retry_republishes_once demoUnmarshal demoService demoEnv emptyWorld "msg-123"
      "payment.initiated" "wallet-queue-dlq" 2 (demoEvent PaymentInitiated) (by decide)
      (by decide) (by decide)).1,
   (retry_republishes_once demoUnmarshal demoService demoEnv emptyWorld "msg-123"
      "payment.initiated" "wallet-queue-dlq" 2 (demoEvent PaymentInitiated) (by decide)
      (by decide) (by decide)).2.1,
   (retry_republishes_once demoUnmarshal demoService demoEnv emptyWorld "msg-123"
      "payment.initiated" "wallet-queue-dlq" 2 (demoEvent PaymentInitiated) (by decide)
      (by decide) (by decide)).2.2.1 (by decide)⟩

/-- C15. For a message whose body decodes to an event, with a retry count that has reached
`maxRetries` or a kind that is neither payment.initiated nor wallet.funds_reserved,
`HandleFailedEvent` hands nothing to the publisher and hands the store exactly one
`FailedEvent`: its ID is the message ID, its original event the body verbatim, its kind and
payment ID those of the decoded event, its error message "max retries exceeded", its source
and retry count the ones given, its status "failed". -/
theorem exhausted_or_unretryable_is_stored (unmarshal : Unmarshal) (s : Service) (env : Env)
    (w : World) (messageID body source : String) (retryCount : Int) (event : Event)
    (hparse : unmarshal body = .ok event)
    (hcond : s.maxRetries ≤ retryCount ∨
      (event.EventType ≠ PaymentInitiated ∧ event.EventType ≠ FundsReserved)) :
    (HandleFailedEvent unmarshal s env w messageID body source retryCount).2.published
      = w.published ∧
    (HandleFailedEvent unmarshal s env w messageID body source retryCount).2.puts
      = w.puts ++
        [{ CreatedAt := env.now, ID := messageID, OriginalEvent := body,
           EventType := event.EventType, PaymentID := event.PaymentID,
           ErrorMessage := "max retries exceeded", Source := source, Status := "failed",
           RetryCount := retryCount }] ∧
    (env.putItem = none →
      (HandleFailedEvent unmarshal s env w messageID body source retryCount).1 = none) := by
  have hno : (decide (retryCount < s.maxRetries) && isRetryable event.EventType) = false := by
    rcases hcond with h | h
    · have : ¬ retryCount < s.maxRetries := not_lt.mpr h
      simp [this]
    · have : isRetryable event.EventType = false := by
        rw [Bool.eq_false_iff]
        intro hr
        rcases (isRetryable_iff _).mp hr with h1 | h2
        · exact h.1 h1
        · exact h.2 h2
      simp [this]
  have hout : HandleFailedEvent unmarshal s env w messageID body source retryCount
      = ((env.putItem.map Err.infra).map (Err.wrapped "store failed event"),
          { w with puts := w.puts ++
              [{ CreatedAt := env.now, ID := messageID, OriginalEvent := body,
                 EventType := event.EventType, PaymentID := event.PaymentID,
                 ErrorMessage := "max retries exceeded", Source := source, Status := "failed",
                 RetryCount := retryCount }] }) := by
    simp only [HandleFailedEvent, hparse, hno, Bool.false_eq_true, if_false, storeFailedEvent,
      PutItem]
    cases env.putItem <;> rfl
  rw [hout]
  refine ⟨rfl, rfl, ?_⟩
  intro h; simp [h]

/-- C15 at scenario E's second half (attempt 5 of 3) and at a kind that is not retryable
(gateway.payment_approved at attempt 1). -/
theorem exhausted_or_unretryable_is_stored_witness :
    (HandleFailedEvent demoUnmarshal demoService demoEnv emptyWorld "msg-123"
      "payment.initiated" "wallet-queue-dlq" 5).2.puts
      = emptyWorld.puts ++
        [{ CreatedAt := demoEnv.now, ID := "msg-123", OriginalEvent := "payment.initiated",
           EventType := (demoEvent PaymentInitiated).EventType,
           PaymentID := (demoEvent PaymentInitiated).PaymentID,
           ErrorMessage := "max retries exceeded", Source := "wallet-queue-dlq",
           Status := "failed", RetryCount := 5 }] ∧
    (HandleFailedEvent demoUnmarshal demoService demoEnv emptyWorld "msg-123"
      "gateway.payment_approved" "gateway-queue-dlq" 1).2.published = emptyWorld.published ∧
    (HandleFailedEvent demoUnmarshal demoService demoEnv emptyWorld "msg-123"
      "gateway.payment_approved" "gateway-queue-dlq" 1).2.puts
      = emptyWorld.puts ++
        [{ CreatedAt := demoEnv.now, ID := "msg-123",
           OriginalEvent := "gateway.payment_approved",
           EventType := (demoEvent GatewayPaymentApproved).EventType,
           PaymentID := (demoEvent GatewayPaymentApproved).PaymentID,
           ErrorMessage := "max retries exceeded", Source := "gateway-queue-dlq",
           Status := "failed", RetryCount := 1 }] :=
  ⟨(exhausted_or_unretryable_is_stored demoUnmarshal demoService demoEnv emptyWorld "msg-123"
      "payment.initiated" "wallet-queue-dlq" 5 (demoEvent PaymentInitiated) (by decide)
      (Or.inl (by decide))).2.1,
   (exhausted_or_unretryable_is_stored demoUnmarshal demoService demoEnv emptyWorld "msg-123"
      "gateway.payment_approved" "gateway-queue-dlq" 1 (demoEvent GatewayPaymentApproved)
      (by decide) (Or.inr (by decide))).1,
   (exhausted_or_unretryable_is_stored demoUnmarshal demoService demoEnv emptyWorld "msg-123"
      "gateway.payment_approved" "gateway-queue-dlq" 1 (demoEvent GatewayPaymentApproved)
      (by decide) (Or.inr (by decide))).2.1⟩

/-- C16. For a message body that does not decode to an event, whatever the retry count and
`maxRetries`, `HandleFailedEvent` hands nothing to the publisher and hands the store exactly
one `FailedEvent`, with kind "unknown", empty payment ID, the original body, status "failed",
and an error message that contains the decoding error's text. -/
theorem unparsable_is_stored (unmarshal : Unmarshal) (s : Service) (env : Env) (w : World)
    (messageID body source : String) (retryCount : Int) (parseError : String)
    (hparse : unmarshal body = .error parseError) :
    (HandleFailedEvent unmarshal s env w messageID body source retryCount).2.published
      = w.published ∧
    (HandleFailedEvent unmarshal s env w messageID body source retryCount).2.puts
      = w.puts ++
        [{ CreatedAt := env.now, ID := messageID, OriginalEvent := body,
           EventType := "unknown", PaymentID := "",
           ErrorMessage := "unmarshal error: " ++ parseError, Source := source,
           Status := "failed", RetryCount := retryCount }] ∧
    (∃ pre post, "unmarshal error: " ++ parseError = pre ++ parseError ++ post) ∧
    (env.putItem = none →
      (HandleFailedEvent unmarshal s env w messageID body source retryCount).1 = none) := by
  have hout : HandleFailedEvent unmarshal s env w messageID body source retryCount
      = ((env.putItem.map Err.infra).map (Err.wrapped "store failed event"),
          { w with puts := w.puts ++
              [{ CreatedAt := env.now, ID := messageID, OriginalEvent := body,
                 EventType := "unknown", PaymentID := "",
                 ErrorMessage := "unmarshal error: " ++ parseError, Source := source,
                 Status := "failed", RetryCount := retryCount }] }) := by
    simp only [HandleFailedEvent, hparse, storeFailedEvent, PutItem]
    cases env.putItem <;> rfl
  rw [hout]
  refine ⟨rfl, rfl, ⟨"unmarshal error: ", "", by simp⟩, ?_⟩
  intro h; simp [h]

/-- C16 at scenario D: the body "invalid json". -/
theorem unparsable_is_stored_witness :
    (HandleFailedEvent demoUnmarshal demoService demoEnv emptyWorld "msg-123" "invalid json"
      "some-queue-dlq" 1).2.published = emptyWorld.published ∧
    (HandleFailedEvent demoUnmarshal demoService demoEnv emptyWorld "msg-123" "invalid json"
      "some-queue-dlq" 1).2.puts
      = emptyWorld.puts ++
        [{ CreatedAt := demoEnv.now, ID := "msg-123", OriginalEvent := "invalid json",
           EventType := "unknown", PaymentID := "",
           ErrorMessage := "unmarshal error: " ++
             "invalid character 'i' looking for beginning of value",
           Source := "some-queue-dlq", Status := "failed", RetryCount := 1 }] :=
  ⟨(unparsable_is_stored demoUnmarshal demoService demoEnv emptyWorld "msg-123" "invalid json"
      "some-queue-dlq" 1 "invalid character 'i' looking for beginning of value"
      (by decide)).1,
   (unparsable_is_stored demoUnmarshal demoService demoEnv emptyWorld "msg-123" "invalid json"
      "some-queue-dlq" 1 "invalid character 'i' looking for beginning of value"
      (by decide)).2.1⟩

/-- C17 at a wallet.funds_reserved event: `ReserveFunds` of the wallet service publishes it to
the gateway queue, and `HandleFailedEvent`, given that event at attempt 1 of 3, re-publishes
it to the wallet queue, which is another queue. -/
theorem retry_goes_to_wallet_queue :
    (WalletService.ReserveFunds WalletService.demoService WalletService.demoEnv
      (WalletService.demoWorld 500 "active") "pay-789" "user-789" 100 "USD").2.sent
      = [("http://gateway-queue", demoEvent FundsReserved)] ∧
    demoUnmarshal "wallet.funds_reserved" = .ok (demoEvent FundsReserved) ∧
    HandleFailedEvent demoUnmarshal demoService demoEnv emptyWorld "msg-123"
      "wallet.funds_reserved" "gateway-queue-dlq" 1
      = (none, { puts := [],
                 published := [("http://wallet-queue", demoEvent FundsReserved)] }) ∧
    "http://wallet-queue" ≠ "http://gateway-queue" := by
  decide

end ErrorHandler

namespace GatewayProcessor

open Events

/-- What `ProcessPayment` does when the gateway answers with an approval. -/
theorem process_approved (s : Service) (env : Env) (w : World)
    (paymentID userID reservationID : String) (amount : Decimal) (currency : String)
    (resp : GatewayResponse) (hresp : env.gateway amount currency = .ok resp)
    (happroved : resp.Approved = true) :
    ProcessPayment s env w paymentID userID reservationID amount currency =
      ((env.publish.map Err.infra).map (Err.wrapped "publish approved event"),
        { gatewayCalls := w.gatewayCalls ++ [(amount, currency)],
          published := w.published ++ [(s.walletQueueURL,
            { ID := env.eventID, EventType := GatewayPaymentApproved, OccurredAt := env.now,
              PaymentID := paymentID, UserID := userID, Amount := 0, Currency := "",
              Reason := "", ReservationID := reservationID,
              GatewayRef := resp.Reference })] }) := by
  simp only [ProcessPayment, hresp, happroved, Bool.not_true, Bool.false_eq_true, if_false,
    publishApproved, Publish, Events.New, Event.WithReservation, Event.WithGatewayRef]
  cases env.publish <;> rfl

/-- What `ProcessPayment` does when the gateway call fails or the gateway declines; `reason`
is the error's text, respectively the response's message. -/
theorem process_rejected (s : Service) (env : Env) (w : World)
    (paymentID userID reservationID : String) (amount : Decimal) (currency reason : String)
    (hcase : env.gateway amount currency = .error reason ∨
      ∃ resp, env.gateway amount currency = .ok resp ∧ resp.Approved = false ∧
        resp.Message = reason) :
    ProcessPayment s env w paymentID userID reservationID amount currency =
      ((env.publish.map Err.infra).map (Err.wrapped "publish rejected event"),
        { gatewayCalls := w.gatewayCalls ++ [(amount, currency)],
          published := w.published ++ [(s.walletQueueURL,
            { ID := env.eventID, EventType := GatewayPaymentRejected, OccurredAt := env.now,
              PaymentID := paymentID, UserID := userID, Amount := 0, Currency := "",
              Reason := reason, ReservationID := reservationID, GatewayRef := "" })] }) := by
  rcases hcase with herr | ⟨resp, hresp, hno, hmsg⟩
  · simp only [ProcessPayment, herr, publishRejected, Publish, Events.New,
      Event.WithReservation, Event.WithReason]
    cases env.publish <;> rfl
  · simp only [ProcessPayment, hresp, hno, Bool.not_false, if_true, publishRejected, Publish,
      Events.New, Event.WithReservation, Event.WithReason, hmsg]
    cases env.publish <;> rfl

/-- C18. When the gateway answers an authorization request with an approved response carrying
reference `r`, `ProcessPayment` hands the publisher exactly one message: to the wallet queue,
an event of kind gateway.payment_approved carrying the given payment ID, user ID and
reservation ID and the gateway reference `r`; it returns no error when the publish
succeeds. -/
theorem approved_publishes_approved (s : Service) (env : Env) (w : World)
    (paymentID userID reservationID : String) (amount : Decimal) (currency : String)
    (resp : GatewayResponse) (hresp : env.gateway amount currency = .ok resp)
    (happroved : resp.Approved = true) :
    (ProcessPayment s env w paymentID userID reservationID amount currency).2.published
      = w.published ++ [(s.walletQueueURL,
          { ID := env.eventID, EventType := GatewayPaymentApproved, OccurredAt := env.now,
            PaymentID := paymentID, UserID := userID, Amount := 0, Currency := "",
            Reason := "", ReservationID := reservationID, GatewayRef := resp.Reference })] ∧
    (env.publish = none →
      (ProcessPayment s env w paymentID userID reservationID amount currency).1 = none) := by
  rw [process_approved s env w paymentID userID reservationID amount currency resp hresp
    happroved]
  refine ⟨rfl, ?_⟩
  intro h; simp [h]

/-- C18 at the approval of the tests: reference GW-12345. -/
theorem approved_publishes_approved_witness :
    (ProcessPayment demoService (demoEnv (.ok approvedResponse) none) emptyWorld "pay-123"
      "user-456" "res-789" 100 "USD").2.published
      = emptyWorld.published ++ [(demoService.walletQueueURL,
          { ID := (demoEnv (.ok approvedResponse) none).eventID,
            EventType := GatewayPaymentApproved,
            OccurredAt := (demoEnv (.ok approvedResponse) none).now,
            PaymentID := "pay-123", UserID := "user-456", Amount := 0, Currency := "",
            Reason := "", ReservationID := "res-789",
            GatewayRef := approvedResponse.Reference })] ∧
    (ProcessPayment demoService (demoEnv (.ok approvedResponse) none) emptyWorld "pay-123"
      "user-456" "res-789" 100 "USD").1 = none :=
  ⟨(approved_publishes_approved demoService (demoEnv (.ok approvedResponse) none) emptyWorld
      "pay-123" "user-456" "res-789" 100 "USD" approvedResponse (by decide) (by decide)).1,
   (approved_publishes_approved demoService (demoEnv (.ok approvedResponse) none) emptyWorld
      "pay-123" "user-456" "res-789" 100 "USD" approvedResponse (by decide) (by decide)).2
      (by decide)⟩

/-- C19. A gateway transport error and a response with `Approved = false` are treated alike:
with `reason` the error's text, respectively the response's message, `ProcessPayment` hands
the publisher exactly one message, to the wallet queue, an event of kind
gateway.payment_rejected carrying the payment ID, user ID, reservation ID and that reason; no
message of kind gateway.payment_approved is published; and it returns what the publish
returns, wrapped. -/
theorem gateway_error_and_decline_alike (s : Service) (env : Env) (w : World)
    (paymentID userID reservationID : String) (amount : Decimal) (currency reason : String)
    (hcase : env.gateway amount currency = .error reason ∨
      ∃ resp, env.gateway amount currency = .ok resp ∧ resp.Approved = false ∧
        resp.Message = reason) :
    (ProcessPayment s env w paymentID userID reservationID amount currency).2.published
      = w.published ++ [(s.walletQueueURL,
          { ID := env.eventID, EventType := GatewayPaymentRejected, OccurredAt := env.now,
            PaymentID := paymentID, UserID := userID, Amount := 0, Currency := "",
            Reason := reason, ReservationID := reservationID, GatewayRef := "" })] ∧
    (∀ m ∈ (ProcessPayment s env w paymentID userID reservationID amount
        currency).2.published.drop w.published.length,
      m.2.EventType ≠ GatewayPaymentApproved) ∧
    (ProcessPayment s env w paymentID userID reservationID amount currency).1
      = (env.publish.map Err.infra).map (Err.wrapped "publish rejected event") := by
  rw [process_rejected s env w paymentID userID reservationID amount currency reason hcase]
  refine ⟨rfl, ?_, rfl⟩
  intro m hm
  simp only [List.drop_left, List.mem_singleton] at hm
  subst hm
  show GatewayPaymentRejected ≠ GatewayPaymentApproved
  decide

/-- C19 at the two rejections of the tests: the transport error "timeout" and the decline
"insufficient funds at issuer". -/
theorem gateway_error_and_decline_alike_witness :
    (ProcessPayment demoService (demoEnv (.error "timeout") none) emptyWorld "pay-123"
      "user-456" "res-789" 100 "USD").2.published
      = emptyWorld.published ++ [(demoService.walletQueueURL,
          { ID := (demoEnv (.error "timeout") none).eventID,
            EventType := GatewayPaymentRejected,
            OccurredAt := (demoEnv (.error "timeout") none).now,
            PaymentID := "pay-123", UserID := "user-456", Amount := 0, Currency := "",
            Reason := "timeout", ReservationID := "res-789", GatewayRef := "" })] ∧
    (ProcessPayment demoService (demoEnv (.ok declinedResponse) none) emptyWorld "pay-123"
      "user-456" "res-789" 100 "USD").2.published
      = emptyWorld.published ++ [(demoService.walletQueueURL,
          { ID := (demoEnv (.ok declinedResponse) none).eventID,
            EventType := GatewayPaymentRejected,
            OccurredAt := (demoEnv (.ok declinedResponse) none).now,
            PaymentID := "pay-123", UserID := "user-456", Amount := 0, Currency := "",
            Reason := "insufficient funds at issuer", ReservationID := "res-789",
            GatewayRef := "" })] :=
  ⟨(gateway_error_and_decline_alike demoService (demoEnv (.error "timeout") none) emptyWorld
      "pay-123" "user-456" "res-789" 100 "USD" "timeout" (Or.inl (by decide))).1,
   (gateway_error_and_decline_alike demoService (demoEnv (.ok declinedResponse) none)
      emptyWorld "pay-123" "user-456" "res-789" 100 "USD" "insufficient funds at issuer"
      (Or.inr ⟨declinedResponse, by decide, by decide, by decide⟩)).1⟩

/-- C20 fails as stated: when the gateway call fails with "timeout" and the publish of the
rejection fails with "queue down", `ProcessPayment` returns an error. -/
theorem gateway_error_may_return_error :
    (demoEnv (.error "timeout") (some "queue down")).gateway 100 "USD" = .error "timeout" ∧
    ProcessPayment demoService (demoEnv (.error "timeout") (some "queue down")) emptyWorld
      "pay-123" "user-456" "res-789" 100 "USD"
      = (some (.wrapped "publish rejected event" (.infra "queue down")),
          { gatewayCalls := [(100, "USD")],
            published := [("http://wallet-queue",
              { ID := "evt-gw", EventType := "gateway.payment_rejected", OccurredAt := 3000,
                PaymentID := "pay-123", UserID := "user-456", Amount := 0, Currency := "",
                Reason := "timeout", ReservationID := "res-789", GatewayRef := "" })] }) ∧
    (ProcessPayment demoService (demoEnv (.error "timeout") (some "queue down")) emptyWorld
      "pay-123" "user-456" "res-789" 100 "USD").1 ≠ none := by
  decide

/-- C20 (amended). When the gateway call fails with a transport error, `ProcessPayment` makes
that one request to the gateway and no other, and returns no error when the publish of the
rejection succeeds; when the publish fails it returns the publisher's error, wrapped as
"publish rejected event". -/
theorem gateway_error_single_attempt (s : Service) (env : Env) (w : World)
    (paymentID userID reservationID : String) (amount : Decimal) (currency : String)
    (gatewayError : String) (hgw : env.gateway amount currency = .error gatewayError) :
    (ProcessPayment s env w paymentID userID reservationID amount currency).2.gatewayCalls
      = w.gatewayCalls ++ [(amount, currency)] ∧
    (env.publish = none →
      (ProcessPayment s env w paymentID userID reservationID amount currency).1 = none) ∧
    (∀ e, env.publish = some e →
      (ProcessPayment s env w paymentID userID reservationID amount currency).1
        = some (.wrapped "publish rejected event" (.infra e))) := by
  rw [process_rejected s env w paymentID userID reservationID amount currency gatewayError
    (Or.inl hgw)]
  refine ⟨rfl, ?_, ?_⟩
  · intro h; simp [h]
  · intro e h; simp [h]

/-- C20 (amended) at the transport error "timeout" with the publish succeeding. -/
theorem gateway_error_single_attempt_witness :
    (ProcessPayment demoService (demoEnv (.error "timeout") none) emptyWorld "pay-123"
      "user-456" "res-789" 100 "USD").2.gatewayCalls
      = emptyWorld.gatewayCalls ++ [(100, "USD")] ∧
    (ProcessPayment demoService (demoEnv (.error "timeout") none) emptyWorld "pay-123"
      "user-456" "res-789" 100 "USD").1 = none :=
  ⟨(gateway_error_single_attempt demoService (demoEnv (.error "timeout") none) emptyWorld
      "pay-123" "user-456" "res-789" 100 "USD" "timeout" (by decide)).1,
   (gateway_error_single_attempt demoService (demoEnv (.error "timeout") none) emptyWorld
      "pay-123" "user-456" "res-789" 100 "USD" "timeout" (by decide)).2.1 (by decide)⟩

/-- C21 fails as stated: the event published for a decline with code "DECLINED" holds that
code in none of its fields, and the event published for the same decline with code "EXPIRED"
is the same event. -/
theorem rejected_event_has_no_code :
    ProcessPayment demoService (demoEnv (.ok declinedResponse) none) emptyWorld "pay-123"
      "user-456" "res-789" 100 "USD"
      = (none,
          { gatewayCalls := [(100, "USD")],
            published := [("http://wallet-queue",
              { ID := "evt-gw", EventType := "gateway.payment_rejected", OccurredAt := 3000,
                PaymentID := "pay-123", UserID := "user-456", Amount := 0, Currency := "",
                Reason := "insufficient funds at issuer", ReservationID := "res-789",
                GatewayRef := "" })] }) ∧
    declinedResponse.ErrorCode = "DECLINED" ∧
    (∀ m ∈ (ProcessPayment demoService (demoEnv (.ok declinedResponse) none) emptyWorld
        "pay-123" "user-456" "res-789" 100 "USD").2.published,
      m.2.ID ≠ "DECLINED" ∧ m.2.EventType ≠ "DECLINED" ∧ m.2.PaymentID ≠ "DECLINED" ∧
      m.2.UserID ≠ "DECLINED" ∧ m.2.Currency ≠ "DECLINED" ∧ m.2.Reason ≠ "DECLINED" ∧
      m.2.ReservationID ≠ "DECLINED" ∧ m.2.GatewayRef ≠ "DECLINED") ∧
    ProcessPayment demoService
      (demoEnv (.ok { declinedResponse with ErrorCode := "EXPIRED" }) none) emptyWorld
      "pay-123" "user-456" "res-789" 100 "USD"
      = ProcessPayment demoService (demoEnv (.ok declinedResponse) none) emptyWorld "pay-123"
          "user-456" "res-789" 100 "USD" := by
  decide

/-- C21 (amended). Every gateway.payment_rejected event published by `ProcessPayment` carries
the human-readable reason (the error's text, respectively the response's message) in its
`Reason` field.  The code is not carried: `publishRejected` does the same, and publishes the
same event, whatever code it is given. -/
theorem rejected_event_carries_reason_only (s : Service) (env : Env) (w : World)
    (paymentID userID reservationID : String) (amount : Decimal) (currency reason : String)
    (hcase : env.gateway amount currency = .error reason ∨
      ∃ resp, env.gateway amount currency = .ok resp ∧ resp.Approved = false ∧
        resp.Message = reason) :
    (∀ m ∈ (ProcessPayment s env w paymentID userID reservationID amount
        currency).2.published.drop w.published.length,
      m.2.EventType = GatewayPaymentRejected ∧ m.2.Reason = reason) ∧
    (ProcessPayment s env w paymentID userID reservationID amount
        currency).2.published.length = w.published.length + 1 ∧
    (∀ (w2 : World) (code code2 : String),
      publishRejected s env w2 paymentID userID reservationID code reason
        = publishRejected s env w2 paymentID userID reservationID code2 reason) := by
  rw [process_rejected s env w paymentID userID reservationID amount currency reason hcase]
  refine ⟨?_, ?_, ?_⟩
  · intro m hm
    simp only [List.drop_left, List.mem_singleton] at hm
    subst hm
    exact ⟨rfl, rfl⟩
  · simp
  · intro w2 code code2
    rfl

/-- C21 (amended) at the decline of the tests. -/
theorem rejected_event_carries_reason_only_witness :
    (ProcessPayment demoService (demoEnv (.ok declinedResponse) none) emptyWorld
        "pay-123" "user-456" "res-789" 100 "USD").2.published.length
      = emptyWorld.published.length + 1 ∧
    (∀ m ∈ (ProcessPayment demoService (demoEnv (.ok declinedResponse) none) emptyWorld
        "pay-123" "user-456" "res-789" 100 "USD").2.published.drop
        emptyWorld.published.length,
      m.2.EventType = GatewayPaymentRejected ∧
        m.2.Reason = "insufficient funds at issuer") :=
  ⟨(rejected_event_carries_reason_only demoService (demoEnv (.ok declinedResponse) none)
      emptyWorld "pay-123" "user-456" "res-789" 100 "USD" "insufficient funds at issuer"
      (Or.inr ⟨declinedResponse, by decide, by decide, by decide⟩)).2.1,
   (rejected_event_carries_reason_only demoService (demoEnv (.ok declinedResponse) none)
      emptyWorld "pay-123" "user-456" "res-789" 100 "USD" "insufficient funds at issuer"
      (Or.inr ⟨declinedResponse, by decide, by decide, by decide⟩)).1⟩

/-- C22. For a record whose body decodes to an event of a kind other than
wallet.funds_reserved, in the catalog or not, `processRecord` of the gateway processor
returns no error and leaves the world as it was: no request is made to the gateway and
nothing is published. -/
theorem other_kinds_are_dropped (unmarshal : ErrorHandler.Unmarshal) (s : Service) (env : Env)
    (w : World) (record : SQSMessage) (event : Event)
    (hparse : unmarshal record.Body = .ok event)
    (hkind : event.EventType ≠ FundsReserved) :
    (processRecord unmarshal s env w record).1 = none ∧
    (processRecord unmarshal s env w record).2.gatewayCalls = w.gatewayCalls ∧
    (processRecord unmarshal s env w record).2.published = w.published ∧
    (processRecord unmarshal s env w record).2 = w := by
  have hne : (event.EventType == FundsReserved) = false := by simpa using hkind
  simp [processRecord, hparse, hne]

/-- C22 at an event of kind gateway.payment_approved. -/
theorem other_kinds_are_dropped_witness :
    processRecord ErrorHandler.demoUnmarshal demoService (demoEnv (.ok approvedResponse) none)
      emptyWorld (demoRecord "msg-1" "gateway.payment_approved") = (none, emptyWorld) :=
  Prod.ext
    (other_kinds_are_dropped ErrorHandler.demoUnmarshal demoService
      (demoEnv (.ok approvedResponse) none) emptyWorld
      (demoRecord "msg-1" "gateway.payment_approved")
      (ErrorHandler.demoEvent GatewayPaymentApproved) (by decide) (by decide)).1
    (other_kinds_are_dropped ErrorHandler.demoUnmarshal demoService
      (demoEnv (.ok approvedResponse) none) emptyWorld
      (demoRecord "msg-1" "gateway.payment_approved")
      (ErrorHandler.demoEvent GatewayPaymentApproved) (by decide) (by decide)).2.2.2

end GatewayProcessor

theorem forEachRecord_eq {W R : Type} (processRecord : W → R → Option Err × W)
    (lastErr : Option Err) (w : W) (records : List R) :
    forEachRecord processRecord lastErr w records =
      ((match lastFailure (runRecords processRecord w records).1 with
        | some err => some err
        | none => lastErr),
       (runRecords processRecord w records).2) := by
  induction records generalizing lastErr w with
  | nil => rfl
  | cons record rest ih =>
    simp only [forEachRecord, runRecords, lastFailure]
    rcases hp : processRecord w record with ⟨outcome, w1⟩
    cases outcome with
    | some err =>
      simp only [ih]
      cases lastFailure (runRecords processRecord w1 rest).1 <;> rfl
    | none =>
      simp only [ih]
      cases lastFailure (runRecords processRecord w1 rest).1 <;> rfl

theorem runRecords_length {W R : Type} (processRecord : W → R → Option Err × W) (w : W)
    (records : List R) : (runRecords processRecord w records).1.length = records.length := by
  induction records generalizing w with
  | nil => rfl
  | cons record rest ih => simp [runRecords, ih]

theorem lastFailure_eq_none_iff (outcomes : List (Option Err)) :
    lastFailure outcomes = none ↔ ∀ o ∈ outcomes, o = none := by
  induction outcomes with
  | nil => simp [lastFailure]
  | cons o rest ih =>
    simp only [lastFailure, List.mem_cons, forall_eq_or_imp]
    cases h : lastFailure rest with
    | some err =>
      simp only [reduceCtorEq, false_iff, not_and]
      intro _ hall
      rw [ih.mpr hall] at h
      cases h
    | none =>
      simp only
      exact ⟨fun ho => ⟨ho, ih.mp h⟩, fun hh => hh.1⟩

theorem lastFailure_eq_some_iff (outcomes : List (Option Err)) (err : Err) :
    lastFailure outcomes = some err ↔
      ∃ earlier later, outcomes = earlier ++ some err :: later ∧ ∀ o ∈ later, o = none := by
  induction outcomes with
  | nil => simp [lastFailure]
  | cons o rest ih =>
    simp only [lastFailure]
    cases h : lastFailure rest with
    | some e2 =>
      simp only [Option.some.injEq]
      constructor
      · intro he
        subst he
        obtain ⟨earlier, later, hrest, hlater⟩ := (ih.mp (by rw [h]))
        exact ⟨o :: earlier, later, by rw [hrest]; rfl, hlater⟩
      · rintro ⟨earlier, later, hsplit, hlater⟩
        cases earlier with
        | nil =>
          simp only [List.nil_append, List.cons.injEq] at hsplit
          rw [hsplit.2, (lastFailure_eq_none_iff later).mpr hlater] at h
          cases h
        | cons x earlier =>
          simp only [List.cons_append, List.cons.injEq] at hsplit
          have := ih.mpr ⟨earlier, later, hsplit.2, hlater⟩
          rw [h] at this
          exact Option.some.inj this
    | none =>
      simp only
      have hnone := (lastFailure_eq_none_iff rest).mp h
      constructor
      · intro ho
        exact ⟨[], rest, by rw [ho]; rfl, hnone⟩
      · rintro ⟨earlier, later, hsplit, _⟩
        cases earlier with
        | nil =>
          simp only [List.nil_append, List.cons.injEq] at hsplit
          exact hsplit.1
        | cons x earlier =>
          simp only [List.cons_append, List.cons.injEq] at hsplit
          have hmem : (some err : Option Err) ∈ rest := by
            rw [hsplit.2]; simp
          have := hnone _ hmem
          cases this

/-- C23. For every batch, `Handle` of the gateway processor and `Handle` of the error handler
hand every record to `processRecord`, in order, each in the world the previous one left and
whatever the earlier ones returned: the final world is the one that run leaves.  `Handle`
returns nil if and only if every record was processed without error, and otherwise the error
of the last record that failed. -/
theorem handle_attempts_every_record (unmarshal : ErrorHandler.Unmarshal) :
    (∀ (s : GatewayProcessor.Service) (w : GatewayProcessor.World)
        (records : List (GatewayProcessor.Env × SQSMessage)),
      GatewayProcessor.Handle unmarshal s w records
        = (lastFailure (runRecords
              (fun w1 r => GatewayProcessor.processRecord unmarshal s r.1 w1 r.2) w records).1,
            (runRecords
              (fun w1 r => GatewayProcessor.processRecord unmarshal s r.1 w1 r.2) w
              records).2) ∧
      (runRecords (fun w1 r => GatewayProcessor.processRecord unmarshal s r.1 w1 r.2) w
        records).1.length = records.length ∧
      ((GatewayProcessor.Handle unmarshal s w records).1 = none ↔
        ∀ o ∈ (runRecords (fun w1 r => GatewayProcessor.processRecord unmarshal s r.1 w1 r.2)
          w records).1, o = none)) ∧
    (∀ (s : ErrorHandler.Service) (w : ErrorHandler.World)
        (records : List (ErrorHandler.Env × SQSMessage)),
      ErrorHandler.Handle unmarshal s w records
        = (lastFailure (runRecords
              (fun w1 r => ErrorHandler.processRecord unmarshal s r.1 w1 r.2) w records).1,
            (runRecords
              (fun w1 r => ErrorHandler.processRecord unmarshal s r.1 w1 r.2) w records).2) ∧
      (runRecords (fun w1 r => ErrorHandler.processRecord unmarshal s r.1 w1 r.2) w
        records).1.length = records.length ∧
      ((ErrorHandler.Handle unmarshal s w records).1 = none ↔
        ∀ o ∈ (runRecords (fun w1 r => ErrorHandler.processRecord unmarshal s r.1 w1 r.2)
          w records).1, o = none)) ∧
    (∀ (outcomes : List (Option Err)) (err : Err),
      lastFailure outcomes = some err ↔
        ∃ earlier later, outcomes = earlier ++ some err :: later ∧ ∀ o ∈ later, o = none) := by
  refine ⟨?_, ?_, lastFailure_eq_some_iff⟩
  · intro s w records
    have h : GatewayProcessor.Handle unmarshal s w records
        = (lastFailure (runRecords
              (fun w1 r => GatewayProcessor.processRecord unmarshal s r.1 w1 r.2) w records).1,
            (runRecords
              (fun w1 r => GatewayProcessor.processRecord unmarshal s r.1 w1 r.2) w
              records).2) := by
      unfold GatewayProcessor.Handle
      rw [forEachRecord_eq]
      cases lastFailure (runRecords
        (fun w1 r => GatewayProcessor.processRecord unmarshal s r.1 w1 r.2) w records).1 <;> rfl
    refine ⟨h, runRecords_length _ _ _, ?_⟩
    rw [h]
    exact lastFailure_eq_none_iff _
  · intro s w records
    have h : ErrorHandler.Handle unmarshal s w records
        = (lastFailure (runRecords
              (fun w1 r => ErrorHandler.processRecord unmarshal s r.1 w1 r.2) w records).1,
            (runRecords
              (fun w1 r => ErrorHandler.processRecord unmarshal s r.1 w1 r.2) w records).2) := by
      unfold ErrorHandler.Handle
      rw [forEachRecord_eq]
      cases lastFailure (runRecords
        (fun w1 r => ErrorHandler.processRecord unmarshal s r.1 w1 r.2) w records).1 <;> rfl
    refine ⟨h, runRecords_length _ _ _, ?_⟩
    rw [h]
    exact lastFailure_eq_none_iff _

/-- C23 at a batch of three for the gateway processor: a body that does not decode, an event
of another kind, and a reservation whose rejection cannot be published.  All three are
processed, the request of the third reaches the gateway, and the error returned is the
third's. -/
theorem handle_attempts_every_record_witness :
    ((GatewayProcessor.Handle ErrorHandler.demoUnmarshal GatewayProcessor.demoService
      GatewayProcessor.emptyWorld
      [(GatewayProcessor.demoEnv (.ok GatewayProcessor.approvedResponse) none,
          demoRecord "msg-1" "invalid json"),
       (GatewayProcessor.demoEnv (.ok GatewayProcessor.approvedResponse) none,
          demoRecord "msg-2" "payment.initiated"),
       (GatewayProcessor.demoEnv (.error "timeout") (some "queue down"),
          demoRecord "msg-3" "wallet.funds_reserved")]).1 = none ↔
      ∀ o ∈ (runRecords
          (fun w1 r => GatewayProcessor.processRecord ErrorHandler.demoUnmarshal
            GatewayProcessor.demoService r.1 w1 r.2)
          GatewayProcessor.emptyWorld
          [(GatewayProcessor.demoEnv (.ok GatewayProcessor.approvedResponse) none,
              demoRecord "msg-1" "invalid json"),
           (GatewayProcessor.demoEnv (.ok GatewayProcessor.approvedResponse) none,
              demoRecord "msg-2" "payment.initiated"),
           (GatewayProcessor.demoEnv (.error "timeout") (some "queue down"),
              demoRecord "msg-3" "wallet.funds_reserved")]).1, o = none) ∧
    ((GatewayProcessor.Handle ErrorHandler.demoUnmarshal GatewayProcessor.demoService
      GatewayProcessor.emptyWorld
      [(GatewayProcessor.demoEnv (.ok GatewayProcessor.approvedResponse) none,
          demoRecord "msg-1" "invalid json"),
       (GatewayProcessor.demoEnv (.ok GatewayProcessor.approvedResponse) none,
          demoRecord "msg-2" "payment.initiated"),
       (GatewayProcessor.demoEnv (.error "timeout") (some "queue down"),
          demoRecord "msg-3" "wallet.funds_reserved")]).1
      = some (.wrapped "publish rejected event" (.infra "queue down")) ∧
    (GatewayProcessor.Handle ErrorHandler.demoUnmarshal GatewayProcessor.demoService
      GatewayProcessor.emptyWorld
      [(GatewayProcessor.demoEnv (.ok GatewayProcessor.approvedResponse) none,
          demoRecord "msg-1" "invalid json"),
       (GatewayProcessor.demoEnv (.ok GatewayProcessor.approvedResponse) none,
          demoRecord "msg-2" "payment.initiated"),
       (GatewayProcessor.demoEnv (.error "timeout") (some "queue down"),
          demoRecord "msg-3" "wallet.funds_reserved")]).2.gatewayCalls = [(100, "USD")]) :=
  ⟨((handle_attempts_every_record ErrorHandler.demoUnmarshal).1 GatewayProcessor.demoService
      GatewayProcessor.emptyWorld
      [(GatewayProcessor.demoEnv (.ok GatewayProcessor.approvedResponse) none,
          demoRecord "msg-1" "invalid json"),
       (GatewayProcessor.demoEnv (.ok GatewayProcessor.approvedResponse) none,
          demoRecord "msg-2" "payment.initiated"),
       (GatewayProcessor.demoEnv (.error "timeout") (some "queue down"),
          demoRecord "msg-3" "wallet.funds_reserved")]).2.2,
   by decide⟩

namespace PaymentOrchestrator

open Events

/-- What `CreatePayment` returns and asks of its collaborators, by what the store's write
returns. -/
theorem create_payment_cases (s : Service) (env : Env) (w : World)
    (userID serviceID currency description : String) (amount : Decimal) :
    CreatePayment s env w userID serviceID currency description amount =
      match env.putItem with
      | some e =>
        (.error (.wrapped "save payment" (.infra e)),
          { puts := w.puts ++
              [{ created_at := env.now, updated_at := env.now, id := env.paymentID,
                 user_id := userID, service_id := serviceID, amount := [],
                 currency := currency, status := "pending", description := description }],
            published := w.published })
      | none =>
        (.ok { CreatedAt := env.now, UpdatedAt := env.now, ID := env.paymentID,
               UserID := userID, ServiceID := serviceID, Amount := amount,
               Currency := currency, Status := "pending", Description := description },
          { puts := w.puts ++
              [{ created_at := env.now, updated_at := env.now, id := env.paymentID,
                 user_id := userID, service_id := serviceID, amount := [],
                 currency := currency, status := "pending", description := description }],
            published := w.published ++ [(s.walletQueueURL,
              { ID := env.eventID, EventType := PaymentInitiated, OccurredAt := env.now,
                PaymentID := env.paymentID, UserID := userID, Amount := amount,
                Currency := currency, Reason := "", ReservationID := "",
                GatewayRef := "" })] }) := by
  unfold CreatePayment PutItem Publish
  cases env.putItem with
  | some e => rfl
  | none =>
    cases env.publish with
    | some e => rfl
    | none => rfl

/-- C24 at the payment of the tests (owner "user-123", service "service-456", amount 100 in
USD, description "Test", the store write succeeding).  `CreatePayment` returns the pending
payment of amount 100 and hands the publisher one payment.initiated event for the wallet
queue carrying the payment's ID, owner, amount and currency.  The item it hands the store
holds the payment's other fields, but its `amount` attribute is the map without entries: it
is the very item handed over for an amount of 250, although the two payments returned
differ.  What is stored is not the payment created. -/
theorem stored_item_has_no_amount :
    (CreatePayment demoService (demoEnv none none) emptyWorld "user-123" "service-456" "USD"
      "Test" 100).1
      = .ok { CreatedAt := 4000, UpdatedAt := 4000, ID := "pay-new", UserID := "user-123",
              ServiceID := "service-456", Amount := 100, Currency := "USD",
              Status := "pending", Description := "Test" } ∧
    (CreatePayment demoService (demoEnv none none) emptyWorld "user-123" "service-456" "USD"
      "Test" 100).2.published
      = [("http://queue",
          { ID := "evt-pay", EventType := "payment.initiated", OccurredAt := 4000,
            PaymentID := "pay-new", UserID := "user-123", Amount := 100, Currency := "USD",
            Reason := "", ReservationID := "", GatewayRef := "" })] ∧
    (CreatePayment demoService (demoEnv none none) emptyWorld "user-123" "service-456" "USD"
      "Test" 100).2.puts
      = [{ created_at := 4000, updated_at := 4000, id := "pay-new", user_id := "user-123",
           service_id := "service-456", amount := [], currency := "USD",
           status := "pending", description := "Test" }] ∧
    (CreatePayment demoService (demoEnv none none) emptyWorld "user-123" "service-456" "USD"
      "Test" 250).2.puts
      = (CreatePayment demoService (demoEnv none none) emptyWorld "user-123" "service-456"
          "USD" "Test" 100).2.puts ∧
    (CreatePayment demoService (demoEnv none none) emptyWorld "user-123" "service-456" "USD"
      "Test" 250).1
      ≠ (CreatePayment demoService (demoEnv none none) emptyWorld "user-123" "service-456"
          "USD" "Test" 100).1 := by
  decide

/-- C25. The result of `CreatePayment` is decided by the store write alone.  When the write
succeeds it returns the created payment and no error, whether the publish of
payment.initiated succeeds or fails; when the write fails with `e` it returns no payment and
the error "save payment: e", whose message contains "save payment", and hands nothing to the
publisher.  What the publish returns never changes the result. -/
theorem create_payment_decided_by_write (s : Service) (env : Env) (w : World)
    (userID serviceID currency description : String) (amount : Decimal) :
    (env.putItem = none →
      (CreatePayment s env w userID serviceID currency description amount).1
        = .ok { CreatedAt := env.now, UpdatedAt := env.now, ID := env.paymentID,
                UserID := userID, ServiceID := serviceID, Amount := amount,
                Currency := currency, Status := "pending", Description := description }) ∧
    (∀ e, env.putItem = some e →
      (CreatePayment s env w userID serviceID currency description amount).1
        = .error (.wrapped "save payment" (.infra e)) ∧
      (∃ pre post, (Err.wrapped "save payment" (.infra e)).Error
        = pre ++ "save payment" ++ post) ∧
      (CreatePayment s env w userID serviceID currency description amount).2.published
        = w.published) ∧
    (∀ publish publish2 : Option String,
      (CreatePayment s { env with publish := publish } w userID serviceID currency description
        amount).1
        = (CreatePayment s { env with publish := publish2 } w userID serviceID currency
            description amount).1) := by
  refine ⟨?_, ?_, ?_⟩
  · intro hput
    rw [create_payment_cases, hput]
  · intro e hput
    rw [create_payment_cases, hput]
    exact ⟨rfl, ⟨"", ": " ++ e, by rw [Err.Error, Err.Error, String.append_assoc]; simp⟩, rfl⟩
  · intro publish publish2
    rw [create_payment_cases, create_payment_cases]

/-- C25 at the two failures of the tests: the publish failing with "sqs error", and the write
failing with "db error". -/
theorem create_payment_decided_by_write_witness :
    (CreatePayment demoService (demoEnv none (some "sqs error")) emptyWorld "user-123" "svc"
      "USD" "Test" 100).1
      = .ok { CreatedAt := (demoEnv none (some "sqs error")).now,
              UpdatedAt := (demoEnv none (some "sqs error")).now,
              ID := (demoEnv none (some "sqs error")).paymentID, UserID := "user-123",
              ServiceID := "svc", Amount := 100, Currency := "USD", Status := "pending",
              Description := "Test" } ∧
    ((CreatePayment demoService (demoEnv (some "db error") none) emptyWorld "user-123" "svc"
      "USD" "Test" 100).1 = .error (.wrapped "save payment" (.infra "db error")) ∧
      (∃ pre post, (Err.wrapped "save payment" (.infra "db error")).Error
        = pre ++ "save payment" ++ post) ∧
      (CreatePayment demoService (demoEnv (some "db error") none) emptyWorld "user-123" "svc"
        "USD" "Test" 100).2.published = emptyWorld.published) :=
  ⟨(create_payment_decided_by_write demoService (demoEnv none (some "sqs error")) emptyWorld
      "user-123" "svc" "USD" "Test" 100).1 (by decide),
   (create_payment_decided_by_write demoService (demoEnv (some "db error") none) emptyWorld
      "user-123" "svc" "USD" "Test" 100).2.1 "db error" (by decide)⟩

/-- C27 fails as stated: a request with an empty service reference and an empty description
passes `Validate`. -/
theorem validate_ignores_service_and_description :
    CreatePaymentRequest.Validate
      { UserID := "user-123", ServiceID := "", Amount := 100, Currency := "USD",
        Description := "" } = none := by
  decide

/-- C27 (amended). A payment intake request passes `Validate` if and only if its owner and
its currency are non-empty and its amount is strictly greater than zero; the service
reference and the description are not looked at. -/
theorem validate_iff (r : CreatePaymentRequest) :
    (r.Validate = none ↔ r.UserID ≠ "" ∧ 0 < r.Amount ∧ r.Currency ≠ "") ∧
    (∀ serviceID description : String,
      CreatePaymentRequest.Validate
        { r with ServiceID := serviceID, Description := description } = r.Validate) := by
  refine ⟨?_, ?_⟩
  · unfold CreatePaymentRequest.Validate
    by_cases hu : r.UserID = ""
    · simp [hu]
    · by_cases ha : r.Amount ≤ 0
      · simp [hu, ha]
      · by_cases hc : r.Currency = ""
        · simp [hu, ha, hc]
        · simp [hu, ha, hc, not_le.mp ha]
  · intro serviceID description
    rfl

end PaymentOrchestrator

namespace MetricsCollector

open Events

/-- The list `buildMetrics` returns, as its three parts: the EventCount datum, the
PaymentAmount datum when the amount is not zero, and the outcome datum of the kind. -/
theorem buildMetrics_parts (s : Service) (env : Env) (event : Event) :
    buildMetrics s env event =
      [{ MetricName := "EventCount", Value := 1, Timestamp := env.now,
         Dimensions := [{ Name := "EventType", Value := event.EventType }], Unit := "Count" }]
      ++ (if event.Amount = 0 then []
          else [{ MetricName := "PaymentAmount", Value := event.Amount, Timestamp := env.now,
                  Dimensions := [{ Name := "EventType", Value := event.EventType },
                                 { Name := "Currency", Value := event.Currency }],
                  Unit := "None" }])
      ++ (if event.EventType = PaymentCompleted then [successMetric s env.now]
          else if event.EventType = PaymentFailed ∨ event.EventType = FundsReservationFailed
              ∨ event.EventType = GatewayPaymentRejected then
            [failureMetric s env.now event.EventType]
          else []) := by
  have hfc : PaymentFailed ≠ PaymentCompleted := by decide
  have hrc : FundsReservationFailed ≠ PaymentCompleted := by decide
  have hgc : GatewayPaymentRejected ≠ PaymentCompleted := by decide
  unfold buildMetrics
  by_cases hc : event.EventType = PaymentCompleted
  · by_cases ha : event.Amount = 0 <;> simp [ha, hc]
  · by_cases hf : event.EventType = PaymentFailed ∨
        event.EventType = FundsReservationFailed ∨ event.EventType = GatewayPaymentRejected
    · rcases hf with h | h | h <;> by_cases ha : event.Amount = 0 <;>
        simp [ha, h, hfc, hrc, hgc]
    · have h1 : event.EventType ≠ PaymentFailed := fun h => hf (Or.inl h)
      have h2 : event.EventType ≠ FundsReservationFailed := fun h => hf (Or.inr (Or.inl h))
      have h3 : event.EventType ≠ GatewayPaymentRejected := fun h => hf (Or.inr (Or.inr h))
      by_cases ha : event.Amount = 0 <;> simp [ha, hc, h1, h2, h3]

/-- C28. For every event, `buildMetrics` returns a list that starts with the EventCount datum
and holds exactly one datum of that name; it has 1 + [amount is not zero] + [kind is
payment.completed, payment.failed, wallet.reservation_failed or gateway.payment_rejected]
data; it holds a PaymentAmount datum exactly when the amount is not zero, a PaymentSuccess
datum exactly when the kind is payment.completed, and a PaymentFailure datum exactly when the
kind is one of the three failure kinds.  So the list is never empty, and `RecordEvent` always
hands CloudWatch one call with that list. -/
theorem buildMetrics_shape (s : Service) (env : Env) (event : Event) :
    (∃ rest, buildMetrics s env event =
      { MetricName := "EventCount", Value := 1, Timestamp := env.now,
        Dimensions := [{ Name := "EventType", Value := event.EventType }], Unit := "Count" }
        :: rest) ∧
    (buildMetrics s env event).countP (fun d => d.MetricName == "EventCount") = 1 ∧
    (buildMetrics s env event).length =
      1 + (if event.Amount = 0 then 0 else 1) +
        (if event.EventType = PaymentCompleted ∨ event.EventType = PaymentFailed ∨
            event.EventType = FundsReservationFailed ∨
            event.EventType = GatewayPaymentRejected then 1 else 0) ∧
    (buildMetrics s env event).countP (fun d => d.MetricName == "PaymentAmount")
      = (if event.Amount = 0 then 0 else 1) ∧
    (buildMetrics s env event).countP (fun d => d.MetricName == "PaymentSuccess")
      = (if event.EventType = PaymentCompleted then 1 else 0) ∧
    (buildMetrics s env event).countP (fun d => d.MetricName == "PaymentFailure")
      = (if event.EventType = PaymentFailed ∨ event.EventType = FundsReservationFailed ∨
            event.EventType = GatewayPaymentRejected then 1 else 0) ∧
    buildMetrics s env event ≠ [] ∧
    (∀ w : World,
      (RecordEvent s env w event).1 = env.putMetricData.map Err.infra ∧
      (RecordEvent s env w event).2.putMetricData
        = w.putMetricData ++ [(s.metricNamespace, buildMetrics s env event)]) := by
  have hcf : PaymentCompleted ≠ PaymentFailed := by decide
  have hcr : PaymentCompleted ≠ FundsReservationFailed := by decide
  have hcg : PaymentCompleted ≠ GatewayPaymentRejected := by decide
  have hne : buildMetrics s env event ≠ [] := by
    rw [buildMetrics_parts]; simp
  refine ⟨?_, ?_, ?_, ?_, ?_, ?_, hne, ?_⟩
  · rw [buildMetrics_parts]
    exact ⟨_, rfl⟩
  · rw [buildMetrics_parts]
    by_cases ha : event.Amount = 0 <;> by_cases hc : event.EventType = PaymentCompleted <;>
      by_cases hf : event.EventType = PaymentFailed ∨
        event.EventType = FundsReservationFailed ∨
        event.EventType = GatewayPaymentRejected <;>
      simp [ha, hc, hf, successMetric, failureMetric, List.countP_cons]
  · rw [buildMetrics_parts]
    by_cases ha : event.Amount = 0 <;> by_cases hc : event.EventType = PaymentCompleted <;>
      by_cases hf : event.EventType = PaymentFailed ∨
        event.EventType = FundsReservationFailed ∨
        event.EventType = GatewayPaymentRejected <;>
      simp [ha, hc, hf]
  · rw [buildMetrics_parts]
    by_cases ha : event.Amount = 0 <;> by_cases hc : event.EventType = PaymentCompleted <;>
      by_cases hf : event.EventType = PaymentFailed ∨
        event.EventType = FundsReservationFailed ∨
        event.EventType = GatewayPaymentRejected <;>
      simp [ha, hc, hf, successMetric, failureMetric, List.countP_cons]
  · rw [buildMetrics_parts]
    by_cases ha : event.Amount = 0 <;> by_cases hc : event.EventType = PaymentCompleted <;>
      by_cases hf : event.EventType = PaymentFailed ∨
        event.EventType = FundsReservationFailed ∨
        event.EventType = GatewayPaymentRejected <;>
      simp [ha, hc, hf, successMetric, failureMetric, List.countP_cons]
  · rw [buildMetrics_parts]
    by_cases hc : event.EventType = PaymentCompleted
    · by_cases ha : event.Amount = 0 <;>
        simp [ha, hc, hcf, hcr, hcg, successMetric, List.countP_cons]
    · by_cases ha : event.Amount = 0 <;>
        by_cases hf : event.EventType = PaymentFailed ∨
          event.EventType = FundsReservationFailed ∨
          event.EventType = GatewayPaymentRejected <;>
        simp [ha, hc, hf, failureMetric, List.countP_cons]
  · intro w
    have hlen : ((buildMetrics s env event).length == 0) = false := by
      cases hb : buildMetrics s env event with
      | nil => exact absurd hb hne
      | cons d rest => rfl
    unfold RecordEvent PutMetricData
    simp only [hlen]
    cases env.putMetricData <;> exact ⟨rfl, rfl⟩

end MetricsCollector

end PaymentSystem
